import Mathlib

/-!
# Verification of the brids identifier library (CPF / CNPJ)

Shallow embedding of `src/cpf.rs` and `src/cnpj.rs`.

Conventions of the embedding:
* The digit arrays `[u8; 11]` / `[u8; 14]` become `List Nat` of length 11 / 14.
  All interior arithmetic in the source is `u8`/`u32`; every quantity involved
  (digits at most 255, weighted sums at most `255 * 11 * 14 * 10`) is far below
  `2^32`, so plain `Nat` arithmetic is exact.
* Text is a list of Unicode scalar values (`List Nat`), matching Rust's
  `s.chars().enumerate()`: offset = character index, `'0' = 48`, `'-' = 45`,
  `'.' = 46`, `'/' = 47`.
* `Result<T, E>` becomes `Except E T`.
-/

deriving instance DecidableEq for Except

namespace Brids

/-- Unicode scalar values of a Lean string, used to write concrete inputs. -/
def codes (s : String) : List Nat :=
  s.toList.map (fun c => c.toNat)

/-- Embeds `ParseCpfError` from cpf.rs.  `invalidCharacter` carries the offending
scalar value and its zero-based character offset. -/
inductive ParseCpfError where
  | empty : ParseCpfError
  | invalidCharacter (c : Nat) (off : Nat) : ParseCpfError
  | invalidNumber : ParseCpfError
deriving DecidableEq, Repr

/-- Embeds `ParseCnpjError` from cnpj.rs. -/
inductive ParseCnpjError where
  | empty : ParseCnpjError
  | invalidCharacter (c : Nat) (off : Nat) : ParseCnpjError
  | invalidNumber : ParseCnpjError
deriving DecidableEq, Repr

/-- Embeds `Cpf([u8; 11])`, a list of 11 digits. -/
structure Cpf where
  digits : List Nat
deriving DecidableEq, Repr

/-- Embeds `Cnpj([u8; 14])`, a list of 14 digits. -/
structure Cnpj where
  digits : List Nat
deriving DecidableEq, Repr

/-- The CPF weight sequence `(2..=10 + i).rev()` of cpf.rs: the list
`[10 + i, …, 3, 2]` (`9 + i` entries). -/
def cpfWeights (i : Nat) : List Nat :=
  (List.range' 2 (9 + i)).reverse

/-- The CNPJ weight sequence `(2..=9).chain(2..=5 + i).rev()` of cnpj.rs:
`[2, …, 9] ++ [2, …, 5 + i]` reversed (`12 + i` entries). -/
def cnpjWeights (i : Nat) : List Nat :=
  (List.range' 2 8 ++ List.range' 2 (4 + i)).reverse

/-- The check-digit computation duplicated through cpf.rs (`from_slice`,
`from_str`, `sample`): zip the first `9 + i` digits with the weights,
sum the products, multiply by 10, reduce mod 11, map 10 and 11 to 0. -/
def cpfCheckDigit (numbers : List Nat) (i : Nat) : Nat :=
  let r := (((numbers.take (9 + i)).zip (cpfWeights i)).map
    (fun p => p.1 * p.2)).sum * 10 % 11
  if r = 10 ∨ r = 11 then 0 else r

/-- The check-digit computation duplicated through cnpj.rs: first `12 + i`
digits zipped with the CNPJ weights. -/
def cnpjCheckDigit (numbers : List Nat) (i : Nat) : Nat :=
  let r := (((numbers.take (12 + i)).zip (cnpjWeights i)).map
    (fun p => p.1 * p.2)).sum * 10 % 11
  if r = 10 ∨ r = 11 then 0 else r

/-- The repeated-number test of both files:
`numbers.iter().all(|&x| x == first_number)`. -/
def allSame (numbers : List Nat) : Bool :=
  numbers.all (fun x => x = numbers.headI)

/-- Embeds `Cpf::from_slice` (cpf.rs lines 67–114).  Lengths other than 9 or 11 are
rejected (0 is `Empty`); digits above 9 are rejected; an 11-digit slice has
its check digits verified after the repeated-number test; a 9-digit slice
gets both check digits computed and filled in. -/
def cpfFromSlice (slice : List Nat) : Except ParseCpfError Cpf :=
  if slice.length = 0 then .error .empty
  else if ¬ (slice.length = 9 ∨ slice.length = 11) then .error .invalidNumber
  else if slice.any (fun x => 9 < x) then .error .invalidNumber
  else
    let numbers := slice ++ List.replicate (11 - slice.length) 0
    if slice.length = 11 ∧ allSame numbers then .error .invalidNumber
    else if slice.length < 11 then
      let n1 := numbers.set 9 (cpfCheckDigit numbers 0)
      .ok ⟨n1.set 10 (cpfCheckDigit n1 1)⟩
    else if cpfCheckDigit numbers 0 ≠ numbers.getD 9 0 then .error .invalidNumber
    else if cpfCheckDigit numbers 1 ≠ numbers.getD 10 0 then .error .invalidNumber
    else .ok ⟨numbers⟩

/-- Embeds `Cnpj::from_slice` (cnpj.rs lines 78–126).  Accepted lengths 8, 12, 14;
for length 8 the code presets `numbers[11] = 1` (company headquarters)
before computing the check digits. -/
def cnpjFromSlice (slice : List Nat) : Except ParseCnpjError Cnpj :=
  if slice.length = 0 then .error .empty
  else if ¬ (slice.length = 8 ∨ slice.length = 12 ∨ slice.length = 14) then
    .error .invalidNumber
  else if slice.any (fun x => 9 < x) then .error .invalidNumber
  else
    let base := slice ++ List.replicate (14 - slice.length) 0
    let numbers := if slice.length = 8 then base.set 11 1 else base
    if slice.length = 14 ∧ allSame numbers then .error .invalidNumber
    else if slice.length < 14 then
      let n1 := numbers.set 12 (cnpjCheckDigit numbers 0)
      .ok ⟨n1.set 13 (cnpjCheckDigit n1 1)⟩
    else if cnpjCheckDigit numbers 0 ≠ numbers.getD 12 0 then .error .invalidNumber
    else if cnpjCheckDigit numbers 1 ≠ numbers.getD 13 0 then .error .invalidNumber
    else .ok ⟨numbers⟩

/-- The character scan of `Cpf::from_str` (cpf.rs lines 206–223).
State: remaining characters, current offset, digit count `i`, the `has_dot`
flag, and the digit buffer (initially eleven zeros).  A digit is stored when
`i < 11`, a 12th digit is `InvalidNumber`; `'.'` (46) is legal at offsets 3
and 7 and sets the flag; `'-'` (45) or `'/'` (47) is legal at offset 11 with
a prior dot or offset 9 without; anything else is `InvalidCharacter`. -/
def cpfScanLoop : List Nat → Nat → Nat → Bool → List Nat →
    Except ParseCpfError (List Nat)
  | [], _, _, _, numbers => .ok numbers
  | c :: rest, off, i, hasDot, numbers =>
    if 48 ≤ c ∧ c ≤ 57 then
      if i < 11 then cpfScanLoop rest (off + 1) (i + 1) hasDot (numbers.set i (c - 48))
      else .error .invalidNumber
    else if c = 46 ∧ (off = 3 ∨ off = 7) then
      cpfScanLoop rest (off + 1) i true numbers
    else if (c = 45 ∨ c = 47) ∧ off = 11 ∧ hasDot = true then
      cpfScanLoop rest (off + 1) i hasDot numbers
    else if (c = 45 ∨ c = 47) ∧ off = 9 ∧ hasDot = false then
      cpfScanLoop rest (off + 1) i hasDot numbers
    else .error (.invalidCharacter c off)

/-- The repeated-number and check-digit phase of `Cpf::from_str`
(cpf.rs lines 225–253), applied to the scanned digit buffer.  Note the
source never compares the digit count against 11 here. -/
def cpfChecks (numbers : List Nat) : Except ParseCpfError Cpf :=
  if allSame numbers then .error .invalidNumber
  else if cpfCheckDigit numbers 0 ≠ numbers.getD 9 0 then .error .invalidNumber
  else if cpfCheckDigit numbers 1 ≠ numbers.getD 10 0 then .error .invalidNumber
  else .ok ⟨numbers⟩

/-- Embeds `Cpf::from_str` (cpf.rs lines 198–254). -/
def cpfFromStr (s : List Nat) : Except ParseCpfError Cpf :=
  if s.length = 0 then .error .empty
  else
    match cpfScanLoop s 0 0 false (List.replicate 11 0) with
    | .error e => .error e
    | .ok numbers => cpfChecks numbers

/-- The character scan of `Cnpj::from_str` (cnpj.rs lines 241–260).
`'.'` legal at offsets 2 and 6; `'/'` at offset 10 with a prior dot or 8
without; `'-'` at offset 15 with a prior dot or 13 without. -/
def cnpjScanLoop : List Nat → Nat → Nat → Bool → List Nat →
    Except ParseCnpjError (List Nat)
  | [], _, _, _, numbers => .ok numbers
  | c :: rest, off, i, hasDot, numbers =>
    if 48 ≤ c ∧ c ≤ 57 then
      if i < 14 then cnpjScanLoop rest (off + 1) (i + 1) hasDot (numbers.set i (c - 48))
      else .error .invalidNumber
    else if c = 46 ∧ (off = 2 ∨ off = 6) then
      cnpjScanLoop rest (off + 1) i true numbers
    else if c = 47 ∧ off = 10 ∧ hasDot = true then
      cnpjScanLoop rest (off + 1) i hasDot numbers
    else if c = 47 ∧ off = 8 ∧ hasDot = false then
      cnpjScanLoop rest (off + 1) i hasDot numbers
    else if c = 45 ∧ off = 15 ∧ hasDot = true then
      cnpjScanLoop rest (off + 1) i hasDot numbers
    else if c = 45 ∧ off = 13 ∧ hasDot = false then
      cnpjScanLoop rest (off + 1) i hasDot numbers
    else .error (.invalidCharacter c off)

/-- The repeated-number and check-digit phase of `Cnpj::from_str`
(cnpj.rs lines 262–291); again no digit-count comparison. -/
def cnpjChecks (numbers : List Nat) : Except ParseCnpjError Cnpj :=
  if allSame numbers then .error .invalidNumber
  else if cnpjCheckDigit numbers 0 ≠ numbers.getD 12 0 then .error .invalidNumber
  else if cnpjCheckDigit numbers 1 ≠ numbers.getD 13 0 then .error .invalidNumber
  else .ok ⟨numbers⟩

/-- Embeds `Cnpj::from_str` (cnpj.rs lines 233–291). -/
def cnpjFromStr (s : List Nat) : Except ParseCnpjError Cnpj :=
  if s.length = 0 then .error .empty
  else
    match cnpjScanLoop s 0 0 false (List.replicate 14 0) with
    | .error e => .error e
    | .ok numbers => cnpjChecks numbers

/-- Embeds `impl fmt::Display for Cpf` (cpf.rs lines 181–193): before digit `i`,
emit `'-'` when `i % 9 = 0 ∧ i ≠ 0`, else `'.'` when `i % 3 = 0 ∧ i ≠ 0`;
each digit 0–9 prints as one character `48 + d`. -/
def cpfDisplay (v : Cpf) : List Nat :=
  (v.digits.enum.map (fun p =>
    (if p.1 % 9 = 0 ∧ p.1 ≠ 0 then [45]
     else if p.1 % 3 = 0 ∧ p.1 ≠ 0 then [46]
     else []) ++ [48 + p.2])).flatten

/-- Embeds `impl fmt::Display for Cnpj` (cnpj.rs lines 213–228): the first two
digits and a dot, then digits 2…13 with `'-'` before relative index 10,
`'/'` before 6, `'.'` before 3. -/
def cnpjDisplay (v : Cnpj) : List Nat :=
  [48 + v.digits.headI, 48 + v.digits.tail.headI, 46] ++
  ((v.digits.drop 2).enum.map (fun p =>
    (if p.1 % 10 = 0 ∧ p.1 ≠ 0 then [45]
     else if p.1 % 6 = 0 ∧ p.1 ≠ 0 then [47]
     else if p.1 % 3 = 0 ∧ p.1 ≠ 0 ∧ p.1 < 6 then [46]
     else []) ++ [48 + p.2])).flatten

/-- Embeds `impl Distribution<Cpf> for Standard` (cpf.rs lines 258–286).  The
random source is modelled as a stream `g` of naturals; draw `k` of
`rng.gen_range(0, 9)` — uniform over the half-open range `0..9`, so over
`0..=8` — is modelled as `g k % 9`, making exactly the values 0–8
attainable.  The nine base digits are drawn, then both check digits are
computed exactly as in `from_slice`. -/
def cpfSample (g : Nat → Nat) : Cpf :=
  let numbers := (List.range 9).map (fun k => g k % 9) ++ [0, 0]
  let n1 := numbers.set 9 (cpfCheckDigit numbers 0)
  ⟨n1.set 10 (cpfCheckDigit n1 1)⟩

/-- Embeds `impl Distribution<Cnpj> for Standard` (cnpj.rs lines 295–324): eight
base digits drawn via `gen_range(0, 9)`, `numbers[11] = 1`, then both
check digits computed. -/
def cnpjSample (g : Nat → Nat) : Cnpj :=
  let numbers := (List.range 8).map (fun k => g k % 9) ++ [0, 0, 0, 1, 0, 0]
  let n1 := numbers.set 12 (cnpjCheckDigit numbers 0)
  ⟨n1.set 13 (cnpjCheckDigit n1 1)⟩

/-- Embeds `Cnpj::branch` (cnpj.rs lines 153–161): digits 8–11 reversed,
enumerated, digit times `10 ^ index`, summed (in `u16` in the source). -/
def cnpjBranch (v : Cnpj) : Nat :=
  ((((v.digits.drop 8).take 4).reverse.enum).map (fun p => p.2 * 10 ^ p.1)).sum

/-- Validity of a CPF digit array: the invariants §3 of the spec claims for
live values (length, digit range, not all identical, check digits). -/
def cpfValid (l : List Nat) : Prop :=
  l.length = 11 ∧ (∀ d ∈ l, d ≤ 9) ∧ allSame l = false ∧
    cpfCheckDigit l 0 = l.getD 9 0 ∧ cpfCheckDigit l 1 = l.getD 10 0

/-- Validity of a CNPJ digit array. -/
def cnpjValid (l : List Nat) : Prop :=
  l.length = 14 ∧ (∀ d ∈ l, d ≤ 9) ∧ allSame l = false ∧
    cnpjCheckDigit l 0 = l.getD 12 0 ∧ cnpjCheckDigit l 1 = l.getD 13 0

instance (l : List Nat) : Decidable (cpfValid l) := by
  unfold cpfValid; infer_instance

instance (l : List Nat) : Decidable (cnpjValid l) := by
  unfold cnpjValid; infer_instance

example : cpfFromStr (codes "123.456.789-09") = .ok ⟨[1,2,3,4,5,6,7,8,9,0,9]⟩ := by decide
example : cpfFromStr (codes "12345678909") = .ok ⟨[1,2,3,4,5,6,7,8,9,0,9]⟩ := by decide
example : cpfFromStr (codes "000000093") = .ok ⟨[0,0,0,0,0,0,0,9,3,0,0]⟩ := by decide
example : cpfFromSlice [0,0,0,0,0,0,0,0,0] = .ok ⟨List.replicate 11 0⟩ := by decide
example : cnpjFromStr (codes "12.345.678/0001-95") = .ok ⟨[1,2,3,4,5,6,7,8,0,0,0,1,9,5]⟩ := by decide
example : cnpjFromStr (codes "12-345-678/0001-95") = .error (.invalidCharacter 45 2) := by decide
example : cnpjFromSlice [1,2,3,4,5,6,7,8] = .ok ⟨[1,2,3,4,5,6,7,8,0,0,0,1,9,5]⟩ := by decide
example : cpfDisplay ⟨[1,2,3,4,5,6,7,8,9,0,9]⟩ = codes "123.456.789-09" := by decide
example : cnpjDisplay ⟨[1,2,3,4,5,6,7,8,0,0,0,1,9,5]⟩ = codes "12.345.678/0001-95" := by decide
example : cpfSample (fun _ => 0) = ⟨List.replicate 11 0⟩ := by decide
example : cnpjBranch ⟨[1,2,3,4,5,6,7,8,0,0,0,1,9,5]⟩ = 1 := by decide
example : cpfValid [1,2,3,4,5,6,7,8,9,0,9] := by decide
example : cnpjValid [1,2,3,4,5,6,7,8,0,0,0,1,9,5] := by decide

/-! ## General list helpers -/

lemma take_set_of_le (l : List Nat) (i n v : Nat) (h : n ≤ i) :
    (l.set i v).take n = l.take n := by
  induction l generalizing i n with
  | nil => simp
  | cons a l ih =>
    cases i with
    | zero =>
      have hn : n = 0 := by omega
      simp [hn]
    | succ i =>
      cases n with
      | zero => simp
      | succ n =>
        simp only [List.set_cons_succ, List.take_succ_cons]
        rw [ih i n (by omega)]

lemma getD_set_self (l : List Nat) (i v : Nat) (h : i < l.length) :
    (l.set i v).getD i 0 = v := by
  induction l generalizing i with
  | nil => simp at h
  | cons a l ih =>
    cases i with
    | zero => simp
    | succ i =>
      simp only [List.set_cons_succ, List.getD_cons_succ]
      exact ih i (by simpa using h)

lemma getD_set_ne (l : List Nat) (i j v : Nat) (h : i ≠ j) :
    (l.set i v).getD j 0 = l.getD j 0 := by
  induction l generalizing i j with
  | nil => simp
  | cons a l ih =>
    cases i with
    | zero =>
      cases j with
      | zero => exact absurd rfl h
      | succ j => simp
    | succ i =>
      cases j with
      | zero => simp
      | succ j =>
        simp only [List.set_cons_succ, List.getD_cons_succ]
        exact ih i j (by omega)

lemma exists_len8 (l : List Nat) (h : List.length l = 8) :
    ∃ e0 e1 e2 e3 e4 e5 e6 e7,
      l = e0 :: e1 :: e2 :: e3 :: e4 :: e5 :: e6 :: e7 :: [] := by
  rcases l with _ | ⟨e0, l⟩
  · simp only [List.length_nil] at h; omega
  rcases l with _ | ⟨e1, l⟩
  · simp only [List.length_cons, List.length_nil] at h; omega
  rcases l with _ | ⟨e2, l⟩
  · simp only [List.length_cons, List.length_nil] at h; omega
  rcases l with _ | ⟨e3, l⟩
  · simp only [List.length_cons, List.length_nil] at h; omega
  rcases l with _ | ⟨e4, l⟩
  · simp only [List.length_cons, List.length_nil] at h; omega
  rcases l with _ | ⟨e5, l⟩
  · simp only [List.length_cons, List.length_nil] at h; omega
  rcases l with _ | ⟨e6, l⟩
  · simp only [List.length_cons, List.length_nil] at h; omega
  rcases l with _ | ⟨e7, l⟩
  · simp only [List.length_cons, List.length_nil] at h; omega
  rcases l with _ | ⟨e8, l⟩
  · exact ⟨e0, e1, e2, e3, e4, e5, e6, e7, rfl⟩
  · simp only [List.length_cons, List.length_nil] at h; omega

lemma exists_len11 (l : List Nat) (h : l.length = 11) :
    ∃ a0 a1 a2 a3 a4 a5 a6 a7 a8 a9 a10,
      l = [a0, a1, a2, a3, a4, a5, a6, a7, a8, a9, a10] := by
  rcases l with _ | ⟨a0, l⟩
  · simp only [List.length_nil] at h; omega
  rcases l with _ | ⟨a1, l⟩
  · simp only [List.length_cons, List.length_nil] at h; omega
  rcases l with _ | ⟨a2, l⟩
  · simp only [List.length_cons, List.length_nil] at h; omega
  rcases l with _ | ⟨a3, l⟩
  · simp only [List.length_cons, List.length_nil] at h; omega
  rcases l with _ | ⟨a4, l⟩
  · simp only [List.length_cons, List.length_nil] at h; omega
  rcases l with _ | ⟨a5, l⟩
  · simp only [List.length_cons, List.length_nil] at h; omega
  rcases l with _ | ⟨a6, l⟩
  · simp only [List.length_cons, List.length_nil] at h; omega
  rcases l with _ | ⟨a7, l⟩
  · simp only [List.length_cons, List.length_nil] at h; omega
  rcases l with _ | ⟨a8, l⟩
  · simp only [List.length_cons, List.length_nil] at h; omega
  rcases l with _ | ⟨a9, l⟩
  · simp only [List.length_cons, List.length_nil] at h; omega
  rcases l with _ | ⟨a10, l⟩
  · simp only [List.length_cons, List.length_nil] at h; omega
  rcases l with _ | ⟨a11, l⟩
  · exact ⟨a0, a1, a2, a3, a4, a5, a6, a7, a8, a9, a10, rfl⟩
  · simp only [List.length_cons, List.length_nil] at h; omega

lemma exists_len14 (l : List Nat) (h : l.length = 14) :
    ∃ a0 a1 a2 a3 a4 a5 a6 a7 a8 a9 a10 a11 a12 a13,
      l = [a0, a1, a2, a3, a4, a5, a6, a7, a8, a9, a10, a11, a12, a13] := by
  rcases l with _ | ⟨a0, l⟩
  · simp only [List.length_nil] at h; omega
  rcases l with _ | ⟨a1, l⟩
  · simp only [List.length_cons, List.length_nil] at h; omega
  rcases l with _ | ⟨a2, l⟩
  · simp only [List.length_cons, List.length_nil] at h; omega
  rcases l with _ | ⟨a3, l⟩
  · simp only [List.length_cons, List.length_nil] at h; omega
  rcases l with _ | ⟨a4, l⟩
  · simp only [List.length_cons, List.length_nil] at h; omega
  rcases l with _ | ⟨a5, l⟩
  · simp only [List.length_cons, List.length_nil] at h; omega
  rcases l with _ | ⟨a6, l⟩
  · simp only [List.length_cons, List.length_nil] at h; omega
  rcases l with _ | ⟨a7, l⟩
  · simp only [List.length_cons, List.length_nil] at h; omega
  rcases l with _ | ⟨a8, l⟩
  · simp only [List.length_cons, List.length_nil] at h; omega
  rcases l with _ | ⟨a9, l⟩
  · simp only [List.length_cons, List.length_nil] at h; omega
  rcases l with _ | ⟨a10, l⟩
  · simp only [List.length_cons, List.length_nil] at h; omega
  rcases l with _ | ⟨a11, l⟩
  · simp only [List.length_cons, List.length_nil] at h; omega
  rcases l with _ | ⟨a12, l⟩
  · simp only [List.length_cons, List.length_nil] at h; omega
  rcases l with _ | ⟨a13, l⟩
  · simp only [List.length_cons, List.length_nil] at h; omega
  rcases l with _ | ⟨a14, l⟩
  · exact ⟨a0, a1, a2, a3, a4, a5, a6, a7, a8, a9, a10, a11, a12, a13, rfl⟩
  · simp only [List.length_cons, List.length_nil] at h; omega

/-! ## Check-digit facts -/

/-- The check digit is computed mod 11 with 10 and 11 mapped to 0, so it is
always at most 9. -/
lemma cpfCheckDigit_le9 (numbers : List Nat) (i : Nat) :
    cpfCheckDigit numbers i ≤ 9 := by
  unfold cpfCheckDigit
  dsimp only
  have h : (((numbers.take (9 + i)).zip (cpfWeights i)).map
      (fun p => p.1 * p.2)).sum * 10 % 11 < 11 := Nat.mod_lt _ (by omega)
  split <;> omega

lemma cnpjCheckDigit_le9 (numbers : List Nat) (i : Nat) :
    cnpjCheckDigit numbers i ≤ 9 := by
  unfold cnpjCheckDigit
  dsimp only
  have h : (((numbers.take (12 + i)).zip (cnpjWeights i)).map
      (fun p => p.1 * p.2)).sum * 10 % 11 < 11 := Nat.mod_lt _ (by omega)
  split <;> omega

/-- The CPF check digit only depends on the first `9 + i` digits. -/
lemma cpfCheckDigit_congr (l1 l2 : List Nat) (i : Nat)
    (h : l1.take (9 + i) = l2.take (9 + i)) :
    cpfCheckDigit l1 i = cpfCheckDigit l2 i := by
  unfold cpfCheckDigit
  rw [h]

/-- The CNPJ check digit only depends on the first `12 + i` digits. -/
lemma cnpjCheckDigit_congr (l1 l2 : List Nat) (i : Nat)
    (h : l1.take (12 + i) = l2.take (12 + i)) :
    cnpjCheckDigit l1 i = cnpjCheckDigit l2 i := by
  unfold cnpjCheckDigit
  rw [h]

/-- Filling the two CPF check-digit positions with the computed check digits
makes the check-digit equations hold on the result. -/
lemma cpf_fill_eqs (numbers n1 n2 : List Nat) (hlen : numbers.length = 11)
    (h1 : n1 = numbers.set 9 (cpfCheckDigit numbers 0))
    (h2 : n2 = n1.set 10 (cpfCheckDigit n1 1)) :
    cpfCheckDigit n2 0 = n2.getD 9 0 ∧ cpfCheckDigit n2 1 = n2.getD 10 0 := by
  have hl1 : n1.length = 11 := by rw [h1]; simp [hlen]
  constructor
  · have e1 : cpfCheckDigit n2 0 = cpfCheckDigit numbers 0 := by
      apply cpfCheckDigit_congr
      rw [h2, h1]
      rw [take_set_of_le _ _ _ _ (by omega), take_set_of_le _ _ _ _ (by omega)]
    have e2 : n2.getD 9 0 = cpfCheckDigit numbers 0 := by
      rw [h2, getD_set_ne _ _ _ _ (by omega), h1,
        getD_set_self _ _ _ (by omega)]
    rw [e1, e2]
  · have e1 : cpfCheckDigit n2 1 = cpfCheckDigit n1 1 := by
      apply cpfCheckDigit_congr
      rw [h2, take_set_of_le _ _ _ _ (by omega)]
    have e2 : n2.getD 10 0 = cpfCheckDigit n1 1 := by
      rw [h2, getD_set_self _ _ _ (by omega)]
    rw [e1, e2]

/-- Filling the two CNPJ check-digit positions with the computed check digits
makes the check-digit equations hold on the result. -/
lemma cnpj_fill_eqs (numbers n1 n2 : List Nat) (hlen : numbers.length = 14)
    (h1 : n1 = numbers.set 12 (cnpjCheckDigit numbers 0))
    (h2 : n2 = n1.set 13 (cnpjCheckDigit n1 1)) :
    cnpjCheckDigit n2 0 = n2.getD 12 0 ∧ cnpjCheckDigit n2 1 = n2.getD 13 0 := by
  have hl1 : n1.length = 14 := by rw [h1]; simp [hlen]
  constructor
  · have e1 : cnpjCheckDigit n2 0 = cnpjCheckDigit numbers 0 := by
      apply cnpjCheckDigit_congr
      rw [h2, h1]
      rw [take_set_of_le _ _ _ _ (by omega), take_set_of_le _ _ _ _ (by omega)]
    have e2 : n2.getD 12 0 = cnpjCheckDigit numbers 0 := by
      rw [h2, getD_set_ne _ _ _ _ (by omega), h1,
        getD_set_self _ _ _ (by omega)]
    rw [e1, e2]
  · have e1 : cnpjCheckDigit n2 1 = cnpjCheckDigit n1 1 := by
      apply cnpjCheckDigit_congr
      rw [h2, take_set_of_le _ _ _ _ (by omega)]
    have e2 : n2.getD 13 0 = cnpjCheckDigit n1 1 := by
      rw [h2, getD_set_self _ _ _ (by omega)]
    rw [e1, e2]

/-! ## Scan step equations -/

lemma cpfScan_digit (rest : List Nat) (off i : Nat) (hasDot : Bool)
    (numbers : List Nat) (d : Nat) (hd : d ≤ 9) (hi : i < 11) :
    cpfScanLoop ((48 + d) :: rest) off i hasDot numbers =
      cpfScanLoop rest (off + 1) (i + 1) hasDot (numbers.set i d) := by
  have hdd : 48 + d - 48 = d := by omega
  simp only [cpfScanLoop]
  rw [if_pos (by omega : 48 ≤ 48 + d ∧ 48 + d ≤ 57), if_pos hi, hdd]

lemma cpfScan_dot (rest : List Nat) (off i : Nat) (hasDot : Bool)
    (numbers : List Nat) (hoff : off = 3 ∨ off = 7) :
    cpfScanLoop (46 :: rest) off i hasDot numbers =
      cpfScanLoop rest (off + 1) i true numbers := by
  rcases hoff with rfl | rfl <;> rfl

lemma cpfScan_sep11 (c : Nat) (rest : List Nat) (i : Nat) (numbers : List Nat)
    (hc : c = 45 ∨ c = 47) :
    cpfScanLoop (c :: rest) 11 i true numbers =
      cpfScanLoop rest 12 i true numbers := by
  rcases hc with rfl | rfl <;> rfl

lemma cpfScan_sep9 (c : Nat) (rest : List Nat) (i : Nat) (numbers : List Nat)
    (hc : c = 45 ∨ c = 47) :
    cpfScanLoop (c :: rest) 9 i false numbers =
      cpfScanLoop rest 10 i false numbers := by
  rcases hc with rfl | rfl <;> rfl

/-- A character that is neither a digit nor a separator allowed by the CPF
position grammar stops the scan with `InvalidCharacter` at its offset. -/
lemma cpfScan_invalidChar (c : Nat) (rest : List Nat) (off i : Nat)
    (hasDot : Bool) (numbers : List Nat)
    (hdigit : ¬ (48 ≤ c ∧ c ≤ 57))
    (hdot : ¬ (c = 46 ∧ (off = 3 ∨ off = 7)))
    (hsep11 : ¬ ((c = 45 ∨ c = 47) ∧ off = 11 ∧ hasDot = true))
    (hsep9 : ¬ ((c = 45 ∨ c = 47) ∧ off = 9 ∧ hasDot = false)) :
    cpfScanLoop (c :: rest) off i hasDot numbers =
      .error (.invalidCharacter c off) := by
  simp only [cpfScanLoop]
  rw [if_neg hdigit, if_neg hdot, if_neg hsep11, if_neg hsep9]

lemma cnpjScan_digit (rest : List Nat) (off i : Nat) (hasDot : Bool)
    (numbers : List Nat) (d : Nat) (hd : d ≤ 9) (hi : i < 14) :
    cnpjScanLoop ((48 + d) :: rest) off i hasDot numbers =
      cnpjScanLoop rest (off + 1) (i + 1) hasDot (numbers.set i d) := by
  have hdd : 48 + d - 48 = d := by omega
  simp only [cnpjScanLoop]
  rw [if_pos (by omega : 48 ≤ 48 + d ∧ 48 + d ≤ 57), if_pos hi, hdd]

lemma cnpjScan_dot (rest : List Nat) (off i : Nat) (hasDot : Bool)
    (numbers : List Nat) (hoff : off = 2 ∨ off = 6) :
    cnpjScanLoop (46 :: rest) off i hasDot numbers =
      cnpjScanLoop rest (off + 1) i true numbers := by
  rcases hoff with rfl | rfl <;> rfl

lemma cnpjScan_slash10 (rest : List Nat) (i : Nat) (numbers : List Nat) :
    cnpjScanLoop (47 :: rest) 10 i true numbers =
      cnpjScanLoop rest 11 i true numbers := by
  rfl

lemma cnpjScan_dash15 (rest : List Nat) (i : Nat) (numbers : List Nat) :
    cnpjScanLoop (45 :: rest) 15 i true numbers =
      cnpjScanLoop rest 16 i true numbers := by
  rfl

/-- A character that is neither a digit nor a separator allowed by the CNPJ
position grammar stops the scan with `InvalidCharacter` at its offset. -/
lemma cnpjScan_invalidChar (c : Nat) (rest : List Nat) (off i : Nat)
    (hasDot : Bool) (numbers : List Nat)
    (hdigit : ¬ (48 ≤ c ∧ c ≤ 57))
    (hdot : ¬ (c = 46 ∧ (off = 2 ∨ off = 6)))
    (hslash10 : ¬ (c = 47 ∧ off = 10 ∧ hasDot = true))
    (hslash8 : ¬ (c = 47 ∧ off = 8 ∧ hasDot = false))
    (hdash15 : ¬ (c = 45 ∧ off = 15 ∧ hasDot = true))
    (hdash13 : ¬ (c = 45 ∧ off = 13 ∧ hasDot = false)) :
    cnpjScanLoop (c :: rest) off i hasDot numbers =
      .error (.invalidCharacter c off) := by
  simp only [cnpjScanLoop]
  rw [if_neg hdigit, if_neg hdot, if_neg hslash10, if_neg hslash8, if_neg hdash15,
    if_neg hdash13]

/-! ## The final check phase -/

lemma cpfChecks_ok (numbers : List Nat) (hsame : allSame numbers = false)
    (h9 : cpfCheckDigit numbers 0 = numbers.getD 9 0)
    (h10 : cpfCheckDigit numbers 1 = numbers.getD 10 0) :
    cpfChecks numbers = .ok ⟨numbers⟩ := by
  unfold cpfChecks
  rw [if_neg (by simp [hsame]), if_neg (by simp [h9]), if_neg (by simp [h10])]

lemma cnpjChecks_ok (numbers : List Nat) (hsame : allSame numbers = false)
    (h12 : cnpjCheckDigit numbers 0 = numbers.getD 12 0)
    (h13 : cnpjCheckDigit numbers 1 = numbers.getD 13 0) :
    cnpjChecks numbers = .ok ⟨numbers⟩ := by
  unfold cnpjChecks
  rw [if_neg (by simp [hsame]), if_neg (by simp [h12]), if_neg (by simp [h13])]

/-- Inversion: the check phase only succeeds when the repeated-number test
fails and both check-digit equations hold, and it returns its input. -/
lemma cpfChecks_ok_inv (numbers : List Nat) (v : Cpf)
    (h : cpfChecks numbers = .ok v) :
    v.digits = numbers ∧ allSame numbers = false ∧
      cpfCheckDigit numbers 0 = numbers.getD 9 0 ∧
      cpfCheckDigit numbers 1 = numbers.getD 10 0 := by
  unfold cpfChecks at h
  by_cases h1 : allSame numbers = true
  · rw [if_pos h1] at h
    cases h
  · rw [if_neg h1] at h
    by_cases h2 : cpfCheckDigit numbers 0 ≠ numbers.getD 9 0
    · rw [if_pos h2] at h
      cases h
    · rw [if_neg h2] at h
      by_cases h3 : cpfCheckDigit numbers 1 ≠ numbers.getD 10 0
      · rw [if_pos h3] at h
        cases h
      · rw [if_neg h3] at h
        cases h
        exact ⟨rfl, by simpa using h1, not_not.mp h2, not_not.mp h3⟩

lemma cnpjChecks_ok_inv (numbers : List Nat) (v : Cnpj)
    (h : cnpjChecks numbers = .ok v) :
    v.digits = numbers ∧ allSame numbers = false ∧
      cnpjCheckDigit numbers 0 = numbers.getD 12 0 ∧
      cnpjCheckDigit numbers 1 = numbers.getD 13 0 := by
  unfold cnpjChecks at h
  by_cases h1 : allSame numbers = true
  · rw [if_pos h1] at h
    cases h
  · rw [if_neg h1] at h
    by_cases h2 : cnpjCheckDigit numbers 0 ≠ numbers.getD 12 0
    · rw [if_pos h2] at h
      cases h
    · rw [if_neg h2] at h
      by_cases h3 : cnpjCheckDigit numbers 1 ≠ numbers.getD 13 0
      · rw [if_pos h3] at h
        cases h
      · rw [if_neg h3] at h
        cases h
        exact ⟨rfl, by simpa using h1, not_not.mp h2, not_not.mp h3⟩

/-- Inversion for the CPF text parser: any successful parse went through the
check phase. -/
lemma cpfFromStr_ok_inv (s : List Nat) (v : Cpf) (h : cpfFromStr s = .ok v) :
    allSame v.digits = false ∧
      cpfCheckDigit v.digits 0 = v.digits.getD 9 0 ∧
      cpfCheckDigit v.digits 1 = v.digits.getD 10 0 := by
  unfold cpfFromStr at h
  by_cases hs : s.length = 0
  · rw [if_pos hs] at h
    cases h
  · rw [if_neg hs] at h
    rcases hscan : cpfScanLoop s 0 0 false (List.replicate 11 0) with e | numbers
    · rw [hscan] at h
      cases h
    · rw [hscan] at h
      obtain ⟨hv, hsame, h9, h10⟩ := cpfChecks_ok_inv numbers v h
      rw [hv]
      exact ⟨hsame, h9, h10⟩

lemma cnpjFromStr_ok_inv (s : List Nat) (v : Cnpj) (h : cnpjFromStr s = .ok v) :
    allSame v.digits = false ∧
      cnpjCheckDigit v.digits 0 = v.digits.getD 12 0 ∧
      cnpjCheckDigit v.digits 1 = v.digits.getD 13 0 := by
  unfold cnpjFromStr at h
  by_cases hs : s.length = 0
  · rw [if_pos hs] at h
    cases h
  · rw [if_neg hs] at h
    rcases hscan : cnpjScanLoop s 0 0 false (List.replicate 14 0) with e | numbers
    · rw [hscan] at h
      cases h
    · rw [hscan] at h
      obtain ⟨hv, hsame, h12, h13⟩ := cnpjChecks_ok_inv numbers v h
      rw [hv]
      exact ⟨hsame, h12, h13⟩

/-! ## Round-trip: scanning the canonical rendering recovers the digits -/

/-- Computes `cpfDisplay` on an explicit digit list: dots at offsets 3 and 7, dash at
offset 11. -/
lemma cpfDisplay_eq (a0 a1 a2 a3 a4 a5 a6 a7 a8 a9 a10 : Nat) :
    cpfDisplay ⟨[a0, a1, a2, a3, a4, a5, a6, a7, a8, a9, a10]⟩ =
      [48 + a0, 48 + a1, 48 + a2, 46, 48 + a3, 48 + a4, 48 + a5, 46,
        48 + a6, 48 + a7, 48 + a8, 45, 48 + a9, 48 + a10] := by
  simp [cpfDisplay, List.enum, List.enumFrom]

/-- Computes `cnpjDisplay` on an explicit digit list: dots at offsets 2 and 6, slash
at offset 10, dash at offset 15. -/
lemma cnpjDisplay_eq (a0 a1 a2 a3 a4 a5 a6 a7 a8 a9 a10 a11 a12 a13 : Nat) :
    cnpjDisplay ⟨[a0, a1, a2, a3, a4, a5, a6, a7, a8, a9, a10, a11, a12, a13]⟩ =
      [48 + a0, 48 + a1, 46, 48 + a2, 48 + a3, 48 + a4, 46, 48 + a5, 48 + a6,
        48 + a7, 47, 48 + a8, 48 + a9, 48 + a10, 48 + a11, 45, 48 + a12,
        48 + a13] := by
  simp [cnpjDisplay, List.enum, List.enumFrom]

/-- Scanning the canonical CPF rendering collects exactly the digits. -/
lemma cpf_scan_display (a0 a1 a2 a3 a4 a5 a6 a7 a8 a9 a10 : Nat)
    (hb0 : a0 ≤ 9) (hb1 : a1 ≤ 9) (hb2 : a2 ≤ 9) (hb3 : a3 ≤ 9) (hb4 : a4 ≤ 9)
    (hb5 : a5 ≤ 9) (hb6 : a6 ≤ 9) (hb7 : a7 ≤ 9) (hb8 : a8 ≤ 9) (hb9 : a9 ≤ 9)
    (hb10 : a10 ≤ 9) :
    cpfScanLoop
      [48 + a0, 48 + a1, 48 + a2, 46, 48 + a3, 48 + a4, 48 + a5, 46,
        48 + a6, 48 + a7, 48 + a8, 45, 48 + a9, 48 + a10] 0 0 false
      (List.replicate 11 0) =
      .ok [a0, a1, a2, a3, a4, a5, a6, a7, a8, a9, a10] := by
  calc
    cpfScanLoop
        [48 + a0, 48 + a1, 48 + a2, 46, 48 + a3, 48 + a4, 48 + a5, 46,
          48 + a6, 48 + a7, 48 + a8, 45, 48 + a9, 48 + a10] 0 0 false
        (List.replicate 11 0)
      = cpfScanLoop
          [48 + a1, 48 + a2, 46, 48 + a3, 48 + a4, 48 + a5, 46,
            48 + a6, 48 + a7, 48 + a8, 45, 48 + a9, 48 + a10] 1 1 false
          [a0, 0, 0, 0, 0, 0, 0, 0, 0, 0, 0] :=
        cpfScan_digit _ _ _ _ _ a0 hb0 (by omega)
    _ = cpfScanLoop
          [48 + a2, 46, 48 + a3, 48 + a4, 48 + a5, 46,
            48 + a6, 48 + a7, 48 + a8, 45, 48 + a9, 48 + a10] 2 2 false
          [a0, a1, 0, 0, 0, 0, 0, 0, 0, 0, 0] :=
        cpfScan_digit _ _ _ _ _ a1 hb1 (by omega)
    _ = cpfScanLoop
          [46, 48 + a3, 48 + a4, 48 + a5, 46,
            48 + a6, 48 + a7, 48 + a8, 45, 48 + a9, 48 + a10] 3 3 false
          [a0, a1, a2, 0, 0, 0, 0, 0, 0, 0, 0] :=
        cpfScan_digit _ _ _ _ _ a2 hb2 (by omega)
    _ = cpfScanLoop
          [48 + a3, 48 + a4, 48 + a5, 46,
            48 + a6, 48 + a7, 48 + a8, 45, 48 + a9, 48 + a10] 4 3 true
          [a0, a1, a2, 0, 0, 0, 0, 0, 0, 0, 0] :=
        cpfScan_dot _ _ _ _ _ (Or.inl rfl)
    _ = cpfScanLoop
          [48 + a4, 48 + a5, 46, 48 + a6, 48 + a7, 48 + a8, 45,
            48 + a9, 48 + a10] 5 4 true
          [a0, a1, a2, a3, 0, 0, 0, 0, 0, 0, 0] :=
        cpfScan_digit _ _ _ _ _ a3 hb3 (by omega)
    _ = cpfScanLoop
          [48 + a5, 46, 48 + a6, 48 + a7, 48 + a8, 45, 48 + a9, 48 + a10] 6 5
          true [a0, a1, a2, a3, a4, 0, 0, 0, 0, 0, 0] :=
        cpfScan_digit _ _ _ _ _ a4 hb4 (by omega)
    _ = cpfScanLoop
          [46, 48 + a6, 48 + a7, 48 + a8, 45, 48 + a9, 48 + a10] 7 6 true
          [a0, a1, a2, a3, a4, a5, 0, 0, 0, 0, 0] :=
        cpfScan_digit _ _ _ _ _ a5 hb5 (by omega)
    _ = cpfScanLoop
          [48 + a6, 48 + a7, 48 + a8, 45, 48 + a9, 48 + a10] 8 6 true
          [a0, a1, a2, a3, a4, a5, 0, 0, 0, 0, 0] :=
        cpfScan_dot _ _ _ _ _ (Or.inr rfl)
    _ = cpfScanLoop
          [48 + a7, 48 + a8, 45, 48 + a9, 48 + a10] 9 7 true
          [a0, a1, a2, a3, a4, a5, a6, 0, 0, 0, 0] :=
        cpfScan_digit _ _ _ _ _ a6 hb6 (by omega)
    _ = cpfScanLoop
          [48 + a8, 45, 48 + a9, 48 + a10] 10 8 true
          [a0, a1, a2, a3, a4, a5, a6, a7, 0, 0, 0] :=
        cpfScan_digit _ _ _ _ _ a7 hb7 (by omega)
    _ = cpfScanLoop
          [45, 48 + a9, 48 + a10] 11 9 true
          [a0, a1, a2, a3, a4, a5, a6, a7, a8, 0, 0] :=
        cpfScan_digit _ _ _ _ _ a8 hb8 (by omega)
    _ = cpfScanLoop
          [48 + a9, 48 + a10] 12 9 true
          [a0, a1, a2, a3, a4, a5, a6, a7, a8, 0, 0] :=
        cpfScan_sep11 45 _ _ _ (Or.inl rfl)
    _ = cpfScanLoop
          [48 + a10] 13 10 true
          [a0, a1, a2, a3, a4, a5, a6, a7, a8, a9, 0] :=
        cpfScan_digit _ _ _ _ _ a9 hb9 (by omega)
    _ = cpfScanLoop [] 14 11 true
          [a0, a1, a2, a3, a4, a5, a6, a7, a8, a9, a10] :=
        cpfScan_digit _ _ _ _ _ a10 hb10 (by omega)
    _ = .ok [a0, a1, a2, a3, a4, a5, a6, a7, a8, a9, a10] := rfl

/-- Scanning the canonical CNPJ rendering collects exactly the digits. -/
lemma cnpj_scan_display (a0 a1 a2 a3 a4 a5 a6 a7 a8 a9 a10 a11 a12 a13 : Nat)
    (hb0 : a0 ≤ 9) (hb1 : a1 ≤ 9) (hb2 : a2 ≤ 9) (hb3 : a3 ≤ 9) (hb4 : a4 ≤ 9)
    (hb5 : a5 ≤ 9) (hb6 : a6 ≤ 9) (hb7 : a7 ≤ 9) (hb8 : a8 ≤ 9) (hb9 : a9 ≤ 9)
    (hb10 : a10 ≤ 9) (hb11 : a11 ≤ 9) (hb12 : a12 ≤ 9) (hb13 : a13 ≤ 9) :
    cnpjScanLoop
      [48 + a0, 48 + a1, 46, 48 + a2, 48 + a3, 48 + a4, 46, 48 + a5, 48 + a6,
        48 + a7, 47, 48 + a8, 48 + a9, 48 + a10, 48 + a11, 45, 48 + a12,
        48 + a13] 0 0 false (List.replicate 14 0) =
      .ok [a0, a1, a2, a3, a4, a5, a6, a7, a8, a9, a10, a11, a12, a13] := by
  calc
    cnpjScanLoop
        [48 + a0, 48 + a1, 46, 48 + a2, 48 + a3, 48 + a4, 46, 48 + a5,
          48 + a6, 48 + a7, 47, 48 + a8, 48 + a9, 48 + a10, 48 + a11, 45,
          48 + a12, 48 + a13] 0 0 false (List.replicate 14 0)
      = cnpjScanLoop
          [48 + a1, 46, 48 + a2, 48 + a3, 48 + a4, 46, 48 + a5, 48 + a6,
            48 + a7, 47, 48 + a8, 48 + a9, 48 + a10, 48 + a11, 45, 48 + a12,
            48 + a13] 1 1 false
          [a0, 0, 0, 0, 0, 0, 0, 0, 0, 0, 0, 0, 0, 0] :=
        cnpjScan_digit _ _ _ _ _ a0 hb0 (by omega)
    _ = cnpjScanLoop
          [46, 48 + a2, 48 + a3, 48 + a4, 46, 48 + a5, 48 + a6, 48 + a7, 47,
            48 + a8, 48 + a9, 48 + a10, 48 + a11, 45, 48 + a12, 48 + a13] 2 2
          false [a0, a1, 0, 0, 0, 0, 0, 0, 0, 0, 0, 0, 0, 0] :=
        cnpjScan_digit _ _ _ _ _ a1 hb1 (by omega)
    _ = cnpjScanLoop
          [48 + a2, 48 + a3, 48 + a4, 46, 48 + a5, 48 + a6, 48 + a7, 47,
            48 + a8, 48 + a9, 48 + a10, 48 + a11, 45, 48 + a12, 48 + a13] 3 2
          true [a0, a1, 0, 0, 0, 0, 0, 0, 0, 0, 0, 0, 0, 0] :=
        cnpjScan_dot _ _ _ _ _ (Or.inl rfl)
    _ = cnpjScanLoop
          [48 + a3, 48 + a4, 46, 48 + a5, 48 + a6, 48 + a7, 47, 48 + a8,
            48 + a9, 48 + a10, 48 + a11, 45, 48 + a12, 48 + a13] 4 3 true
          [a0, a1, a2, 0, 0, 0, 0, 0, 0, 0, 0, 0, 0, 0] :=
        cnpjScan_digit _ _ _ _ _ a2 hb2 (by omega)
    _ = cnpjScanLoop
          [48 + a4, 46, 48 + a5, 48 + a6, 48 + a7, 47, 48 + a8, 48 + a9,
            48 + a10, 48 + a11, 45, 48 + a12, 48 + a13] 5 4 true
          [a0, a1, a2, a3, 0, 0, 0, 0, 0, 0, 0, 0, 0, 0] :=
        cnpjScan_digit _ _ _ _ _ a3 hb3 (by omega)
    _ = cnpjScanLoop
          [46, 48 + a5, 48 + a6, 48 + a7, 47, 48 + a8, 48 + a9, 48 + a10,
            48 + a11, 45, 48 + a12, 48 + a13] 6 5 true
          [a0, a1, a2, a3, a4, 0, 0, 0, 0, 0, 0, 0, 0, 0] :=
        cnpjScan_digit _ _ _ _ _ a4 hb4 (by omega)
    _ = cnpjScanLoop
          [48 + a5, 48 + a6, 48 + a7, 47, 48 + a8, 48 + a9, 48 + a10,
            48 + a11, 45, 48 + a12, 48 + a13] 7 5 true
          [a0, a1, a2, a3, a4, 0, 0, 0, 0, 0, 0, 0, 0, 0] :=
        cnpjScan_dot _ _ _ _ _ (Or.inr rfl)
    _ = cnpjScanLoop
          [48 + a6, 48 + a7, 47, 48 + a8, 48 + a9, 48 + a10, 48 + a11, 45,
            48 + a12, 48 + a13] 8 6 true
          [a0, a1, a2, a3, a4, a5, 0, 0, 0, 0, 0, 0, 0, 0] :=
        cnpjScan_digit _ _ _ _ _ a5 hb5 (by omega)
    _ = cnpjScanLoop
          [48 + a7, 47, 48 + a8, 48 + a9, 48 + a10, 48 + a11, 45, 48 + a12,
            48 + a13] 9 7 true
          [a0, a1, a2, a3, a4, a5, a6, 0, 0, 0, 0, 0, 0, 0] :=
        cnpjScan_digit _ _ _ _ _ a6 hb6 (by omega)
    _ = cnpjScanLoop
          [47, 48 + a8, 48 + a9, 48 + a10, 48 + a11, 45, 48 + a12, 48 + a13]
          10 8 true [a0, a1, a2, a3, a4, a5, a6, a7, 0, 0, 0, 0, 0, 0] :=
        cnpjScan_digit _ _ _ _ _ a7 hb7 (by omega)
    _ = cnpjScanLoop
          [48 + a8, 48 + a9, 48 + a10, 48 + a11, 45, 48 + a12, 48 + a13] 11 8
          true [a0, a1, a2, a3, a4, a5, a6, a7, 0, 0, 0, 0, 0, 0] :=
        cnpjScan_slash10 _ _ _
    _ = cnpjScanLoop
          [48 + a9, 48 + a10, 48 + a11, 45, 48 + a12, 48 + a13] 12 9 true
          [a0, a1, a2, a3, a4, a5, a6, a7, a8, 0, 0, 0, 0, 0] :=
        cnpjScan_digit _ _ _ _ _ a8 hb8 (by omega)
    _ = cnpjScanLoop
          [48 + a10, 48 + a11, 45, 48 + a12, 48 + a13] 13 10 true
          [a0, a1, a2, a3, a4, a5, a6, a7, a8, a9, 0, 0, 0, 0] :=
        cnpjScan_digit _ _ _ _ _ a9 hb9 (by omega)
    _ = cnpjScanLoop
          [48 + a11, 45, 48 + a12, 48 + a13] 14 11 true
          [a0, a1, a2, a3, a4, a5, a6, a7, a8, a9, a10, 0, 0, 0] :=
        cnpjScan_digit _ _ _ _ _ a10 hb10 (by omega)
    _ = cnpjScanLoop
          [45, 48 + a12, 48 + a13] 15 12 true
          [a0, a1, a2, a3, a4, a5, a6, a7, a8, a9, a10, a11, 0, 0] :=
        cnpjScan_digit _ _ _ _ _ a11 hb11 (by omega)
    _ = cnpjScanLoop
          [48 + a12, 48 + a13] 16 12 true
          [a0, a1, a2, a3, a4, a5, a6, a7, a8, a9, a10, a11, 0, 0] :=
        cnpjScan_dash15 _ _ _
    _ = cnpjScanLoop
          [48 + a13] 17 13 true
          [a0, a1, a2, a3, a4, a5, a6, a7, a8, a9, a10, a11, a12, 0] :=
        cnpjScan_digit _ _ _ _ _ a12 hb12 (by omega)
    _ = cnpjScanLoop [] 18 14 true
          [a0, a1, a2, a3, a4, a5, a6, a7, a8, a9, a10, a11, a12, a13] :=
        cnpjScan_digit _ _ _ _ _ a13 hb13 (by omega)
    _ = .ok [a0, a1, a2, a3, a4, a5, a6, a7, a8, a9, a10, a11, a12, a13] := rfl

/-- Round-trip for CPF: parsing the canonical rendering of a valid digit
array succeeds and returns exactly that array. -/
lemma cpf_roundtrip (l : List Nat) (hv : cpfValid l) :
    cpfFromStr (cpfDisplay ⟨l⟩) = .ok ⟨l⟩ := by
  obtain ⟨hlen, hle, hsame, h9, h10⟩ := hv
  obtain ⟨a0, a1, a2, a3, a4, a5, a6, a7, a8, a9, a10, rfl⟩ := exists_len11 l hlen
  have hb0 : a0 ≤ 9 := hle _ (by simp)
  have hb1 : a1 ≤ 9 := hle _ (by simp)
  have hb2 : a2 ≤ 9 := hle _ (by simp)
  have hb3 : a3 ≤ 9 := hle _ (by simp)
  have hb4 : a4 ≤ 9 := hle _ (by simp)
  have hb5 : a5 ≤ 9 := hle _ (by simp)
  have hb6 : a6 ≤ 9 := hle _ (by simp)
  have hb7 : a7 ≤ 9 := hle _ (by simp)
  have hb8 : a8 ≤ 9 := hle _ (by simp)
  have hb9 : a9 ≤ 9 := hle _ (by simp)
  have hb10 : a10 ≤ 9 := hle _ (by simp)
  rw [cpfDisplay_eq]
  unfold cpfFromStr
  rw [if_neg (by simp)]
  rw [cpf_scan_display a0 a1 a2 a3 a4 a5 a6 a7 a8 a9 a10
    hb0 hb1 hb2 hb3 hb4 hb5 hb6 hb7 hb8 hb9 hb10]
  exact cpfChecks_ok _ hsame h9 h10

/-- Round-trip for CNPJ: parsing the canonical rendering of a valid digit
array succeeds and returns exactly that array. -/
lemma cnpj_roundtrip (l : List Nat) (hv : cnpjValid l) :
    cnpjFromStr (cnpjDisplay ⟨l⟩) = .ok ⟨l⟩ := by
  obtain ⟨hlen, hle, hsame, h12, h13⟩ := hv
  obtain ⟨a0, a1, a2, a3, a4, a5, a6, a7, a8, a9, a10, a11, a12, a13, rfl⟩ :=
    exists_len14 l hlen
  have hb0 : a0 ≤ 9 := hle _ (by simp)
  have hb1 : a1 ≤ 9 := hle _ (by simp)
  have hb2 : a2 ≤ 9 := hle _ (by simp)
  have hb3 : a3 ≤ 9 := hle _ (by simp)
  have hb4 : a4 ≤ 9 := hle _ (by simp)
  have hb5 : a5 ≤ 9 := hle _ (by simp)
  have hb6 : a6 ≤ 9 := hle _ (by simp)
  have hb7 : a7 ≤ 9 := hle _ (by simp)
  have hb8 : a8 ≤ 9 := hle _ (by simp)
  have hb9 : a9 ≤ 9 := hle _ (by simp)
  have hb10 : a10 ≤ 9 := hle _ (by simp)
  have hb11 : a11 ≤ 9 := hle _ (by simp)
  have hb12 : a12 ≤ 9 := hle _ (by simp)
  have hb13 : a13 ≤ 9 := hle _ (by simp)
  rw [cnpjDisplay_eq]
  unfold cnpjFromStr
  rw [if_neg (by simp)]
  rw [cnpj_scan_display a0 a1 a2 a3 a4 a5 a6 a7 a8 a9 a10 a11 a12 a13
    hb0 hb1 hb2 hb3 hb4 hb5 hb6 hb7 hb8 hb9 hb10 hb11 hb12 hb13]
  exact cnpjChecks_ok _ hsame h12 h13

/-! ## Reconstruction via from_slice -/

/-- Running `from_slice` on the 9 base digits of a valid CPF recomputes both check
digits and returns the full value. -/
lemma cpf_fromSlice_take (l : List Nat) (hv : cpfValid l) :
    cpfFromSlice (l.take 9) = .ok ⟨l⟩ := by
  obtain ⟨hlen, hle, hsame, h9, h10⟩ := hv
  obtain ⟨a0, a1, a2, a3, a4, a5, a6, a7, a8, a9, a10, rfl⟩ := exists_len11 l hlen
  have hb0 : a0 ≤ 9 := hle _ (by simp)
  have hb1 : a1 ≤ 9 := hle _ (by simp)
  have hb2 : a2 ≤ 9 := hle _ (by simp)
  have hb3 : a3 ≤ 9 := hle _ (by simp)
  have hb4 : a4 ≤ 9 := hle _ (by simp)
  have hb5 : a5 ≤ 9 := hle _ (by simp)
  have hb6 : a6 ≤ 9 := hle _ (by simp)
  have hb7 : a7 ≤ 9 := hle _ (by simp)
  have hb8 : a8 ≤ 9 := hle _ (by simp)
  have e0 : cpfCheckDigit [a0, a1, a2, a3, a4, a5, a6, a7, a8, 0, 0] 0 = a9 := by
    have heq : cpfCheckDigit [a0, a1, a2, a3, a4, a5, a6, a7, a8, 0, 0] 0 =
        cpfCheckDigit [a0, a1, a2, a3, a4, a5, a6, a7, a8, a9, a10] 0 :=
      cpfCheckDigit_congr _ _ 0 rfl
    rw [heq, h9]
    rfl
  have e1 : cpfCheckDigit [a0, a1, a2, a3, a4, a5, a6, a7, a8, a9, 0] 1 = a10 := by
    have heq : cpfCheckDigit [a0, a1, a2, a3, a4, a5, a6, a7, a8, a9, 0] 1 =
        cpfCheckDigit [a0, a1, a2, a3, a4, a5, a6, a7, a8, a9, a10] 1 :=
      cpfCheckDigit_congr _ _ 1 rfl
    rw [heq, h10]
    rfl
  have hany : [a0, a1, a2, a3, a4, a5, a6, a7, a8].any (fun x => 9 < x) = false := by
    simp
    omega
  have step : cpfFromSlice [a0, a1, a2, a3, a4, a5, a6, a7, a8] =
      .ok ⟨[a0, a1, a2, a3, a4, a5, a6, a7, a8,
        cpfCheckDigit [a0, a1, a2, a3, a4, a5, a6, a7, a8, 0, 0] 0,
        cpfCheckDigit [a0, a1, a2, a3, a4, a5, a6, a7, a8,
          cpfCheckDigit [a0, a1, a2, a3, a4, a5, a6, a7, a8, 0, 0] 0, 0] 1]⟩ := by
    unfold cpfFromSlice
    rw [if_neg (by simp), if_neg (by simp), if_neg (by simp [hany])]
    dsimp only
    rw [if_neg (by simp), if_pos (by simp)]
    rfl
  have hl : ([a0, a1, a2, a3, a4, a5, a6, a7, a8, a9, a10] : List Nat).take 9 =
      [a0, a1, a2, a3, a4, a5, a6, a7, a8] := rfl
  rw [hl, step, e0, e1]

/-- Running `from_slice` on the 12 base digits of a valid CNPJ recomputes both check
digits and returns the full value. -/
lemma cnpj_fromSlice_take (l : List Nat) (hv : cnpjValid l) :
    cnpjFromSlice (l.take 12) = .ok ⟨l⟩ := by
  obtain ⟨hlen, hle, hsame, h12, h13⟩ := hv
  obtain ⟨a0, a1, a2, a3, a4, a5, a6, a7, a8, a9, a10, a11, a12, a13, rfl⟩ :=
    exists_len14 l hlen
  have hb0 : a0 ≤ 9 := hle _ (by simp)
  have hb1 : a1 ≤ 9 := hle _ (by simp)
  have hb2 : a2 ≤ 9 := hle _ (by simp)
  have hb3 : a3 ≤ 9 := hle _ (by simp)
  have hb4 : a4 ≤ 9 := hle _ (by simp)
  have hb5 : a5 ≤ 9 := hle _ (by simp)
  have hb6 : a6 ≤ 9 := hle _ (by simp)
  have hb7 : a7 ≤ 9 := hle _ (by simp)
  have hb8 : a8 ≤ 9 := hle _ (by simp)
  have hb9 : a9 ≤ 9 := hle _ (by simp)
  have hb10 : a10 ≤ 9 := hle _ (by simp)
  have hb11 : a11 ≤ 9 := hle _ (by simp)
  have e0 : cnpjCheckDigit
      [a0, a1, a2, a3, a4, a5, a6, a7, a8, a9, a10, a11, 0, 0] 0 = a12 := by
    have heq : cnpjCheckDigit
        [a0, a1, a2, a3, a4, a5, a6, a7, a8, a9, a10, a11, 0, 0] 0 =
        cnpjCheckDigit
        [a0, a1, a2, a3, a4, a5, a6, a7, a8, a9, a10, a11, a12, a13] 0 :=
      cnpjCheckDigit_congr _ _ 0 rfl
    rw [heq, h12]
    rfl
  have e1 : cnpjCheckDigit
      [a0, a1, a2, a3, a4, a5, a6, a7, a8, a9, a10, a11, a12, 0] 1 = a13 := by
    have heq : cnpjCheckDigit
        [a0, a1, a2, a3, a4, a5, a6, a7, a8, a9, a10, a11, a12, 0] 1 =
        cnpjCheckDigit
        [a0, a1, a2, a3, a4, a5, a6, a7, a8, a9, a10, a11, a12, a13] 1 :=
      cnpjCheckDigit_congr _ _ 1 rfl
    rw [heq, h13]
    rfl
  have hany : [a0, a1, a2, a3, a4, a5, a6, a7, a8, a9, a10, a11].any
      (fun x => 9 < x) = false := by
    simp
    omega
  have step : cnpjFromSlice [a0, a1, a2, a3, a4, a5, a6, a7, a8, a9, a10, a11] =
      .ok ⟨[a0, a1, a2, a3, a4, a5, a6, a7, a8, a9, a10, a11,
        cnpjCheckDigit [a0, a1, a2, a3, a4, a5, a6, a7, a8, a9, a10, a11, 0, 0] 0,
        cnpjCheckDigit [a0, a1, a2, a3, a4, a5, a6, a7, a8, a9, a10, a11,
          cnpjCheckDigit [a0, a1, a2, a3, a4, a5, a6, a7, a8, a9, a10, a11, 0, 0] 0,
          0] 1]⟩ := by
    unfold cnpjFromSlice
    rw [if_neg (by simp), if_neg (by simp), if_neg (by simp [hany])]
    dsimp only
    rw [if_neg (show ¬(([a0, a1, a2, a3, a4, a5, a6, a7, a8, a9, a10, a11] :
      List Nat).length = 8) from by simp)]
    rw [if_neg (by simp), if_pos (by simp)]
    rfl
  have hl : ([a0, a1, a2, a3, a4, a5, a6, a7, a8, a9, a10, a11, a12, a13] :
      List Nat).take 12 = [a0, a1, a2, a3, a4, a5, a6, a7, a8, a9, a10, a11] := rfl
  rw [hl, step, e0, e1]

/-- Running `Cnpj::from_slice` on any 8-digit base: the branch field is preset to
`0001`, the base is kept, and both check digits are computed so that the
check-digit equations hold on the result. -/
lemma cnpj_fromSlice_base8 (b : List Nat) (hlen : b.length = 8)
    (hle : ∀ d ∈ b, d ≤ 9) :
    ∃ v : Cnpj, cnpjFromSlice b = .ok v ∧ v.digits.take 8 = b ∧
      (v.digits.drop 8).take 4 = [0, 0, 0, 1] ∧
      cnpjCheckDigit v.digits 0 = v.digits.getD 12 0 ∧
      cnpjCheckDigit v.digits 1 = v.digits.getD 13 0 := by
  obtain ⟨b0, b1, b2, b3, b4, b5, b6, b7, rfl⟩ := exists_len8 b hlen
  have hb0 : b0 ≤ 9 := hle _ (by simp)
  have hb1 : b1 ≤ 9 := hle _ (by simp)
  have hb2 : b2 ≤ 9 := hle _ (by simp)
  have hb3 : b3 ≤ 9 := hle _ (by simp)
  have hb4 : b4 ≤ 9 := hle _ (by simp)
  have hb5 : b5 ≤ 9 := hle _ (by simp)
  have hb6 : b6 ≤ 9 := hle _ (by simp)
  have hb7 : b7 ≤ 9 := hle _ (by simp)
  have hany : [b0, b1, b2, b3, b4, b5, b6, b7].any (fun x => 9 < x) = false := by
    simp
    omega
  have step : cnpjFromSlice [b0, b1, b2, b3, b4, b5, b6, b7] =
      .ok ⟨[b0, b1, b2, b3, b4, b5, b6, b7, 0, 0, 0, 1,
        cnpjCheckDigit [b0, b1, b2, b3, b4, b5, b6, b7, 0, 0, 0, 1, 0, 0] 0,
        cnpjCheckDigit [b0, b1, b2, b3, b4, b5, b6, b7, 0, 0, 0, 1,
          cnpjCheckDigit [b0, b1, b2, b3, b4, b5, b6, b7, 0, 0, 0, 1, 0, 0] 0,
          0] 1]⟩ := by
    unfold cnpjFromSlice
    rw [if_neg (by simp), if_neg (by simp), if_neg (by simp [hany])]
    dsimp only
    rw [if_pos (show (([b0, b1, b2, b3, b4, b5, b6, b7] : List Nat)).length = 8
      from by simp)]
    rw [if_neg (by simp), if_pos (by simp)]
    rfl
  have eqs := cnpj_fill_eqs
    [b0, b1, b2, b3, b4, b5, b6, b7, 0, 0, 0, 1, 0, 0]
    [b0, b1, b2, b3, b4, b5, b6, b7, 0, 0, 0, 1,
      cnpjCheckDigit [b0, b1, b2, b3, b4, b5, b6, b7, 0, 0, 0, 1, 0, 0] 0, 0]
    [b0, b1, b2, b3, b4, b5, b6, b7, 0, 0, 0, 1,
      cnpjCheckDigit [b0, b1, b2, b3, b4, b5, b6, b7, 0, 0, 0, 1, 0, 0] 0,
      cnpjCheckDigit [b0, b1, b2, b3, b4, b5, b6, b7, 0, 0, 0, 1,
        cnpjCheckDigit [b0, b1, b2, b3, b4, b5, b6, b7, 0, 0, 0, 1, 0, 0] 0,
        0] 1]
    (by simp) rfl rfl
  exact ⟨_, step, rfl, rfl, eqs.1, eqs.2⟩

/-- Evaluation of `Cpf::from_slice` on a full 11-digit slice satisfying all
the checks. -/
lemma cpf_fromSlice_full_ok (numbers : List Nat) (hlen : numbers.length = 11)
    (hle : ∀ d ∈ numbers, d ≤ 9) (hsame : allSame numbers = false)
    (h9 : cpfCheckDigit numbers 0 = numbers.getD 9 0)
    (h10 : cpfCheckDigit numbers 1 = numbers.getD 10 0) :
    cpfFromSlice numbers = .ok ⟨numbers⟩ := by
  have hany : numbers.any (fun x => 9 < x) = false := by
    rw [List.any_eq_false]
    intro x hx
    have := hle x hx
    simp
    omega
  have happ : numbers ++ List.replicate (11 - numbers.length) 0 = numbers := by
    rw [hlen]
    simp
  unfold cpfFromSlice
  rw [happ]
  rw [if_neg (by rw [hlen]; simp), if_neg (by rw [hlen]; simp),
    if_neg (by simp [hany]), if_neg (by simp [hsame]),
    if_neg (by rw [hlen]; simp), if_neg (by simp [h9]), if_neg (by simp [h10])]

/-- Evaluation of `Cnpj::from_slice` on a full 14-digit slice satisfying all
the checks. -/
lemma cnpj_fromSlice_full_ok (numbers : List Nat) (hlen : numbers.length = 14)
    (hle : ∀ d ∈ numbers, d ≤ 9) (hsame : allSame numbers = false)
    (h12 : cnpjCheckDigit numbers 0 = numbers.getD 12 0)
    (h13 : cnpjCheckDigit numbers 1 = numbers.getD 13 0) :
    cnpjFromSlice numbers = .ok ⟨numbers⟩ := by
  have hany : numbers.any (fun x => 9 < x) = false := by
    rw [List.any_eq_false]
    intro x hx
    have := hle x hx
    simp
    omega
  have happ : numbers ++ List.replicate (14 - numbers.length) 0 = numbers := by
    rw [hlen]
    simp
  unfold cnpjFromSlice
  rw [happ]
  rw [if_neg (show ¬(numbers.length = 0) from by omega)]
  rw [if_neg (show ¬¬(numbers.length = 8 ∨ numbers.length = 12 ∨
    numbers.length = 14) from not_not_intro (Or.inr (Or.inr hlen)))]
  rw [if_neg (show ¬(numbers.any (fun x => 9 < x) = true) from by simp [hany])]
  dsimp only
  rw [if_neg (show ¬(numbers.length = 8) from by omega)]
  rw [if_neg (show ¬(numbers.length = 14 ∧ allSame numbers = true) from
    fun hc => absurd hc.2 (by simp [hsame]))]
  rw [if_neg (show ¬(numbers.length < 14) from by omega)]
  rw [if_neg (show ¬(cnpjCheckDigit numbers 0 ≠ numbers.getD 12 0) from
    by simp [h12])]
  rw [if_neg (show ¬(cnpjCheckDigit numbers 1 ≠ numbers.getD 13 0) from
    by simp [h13])]

/-- Inversion for `Cpf::from_slice`: every successful result has digits at
most 9 and satisfies the check-digit equations; when the slice had full
length 11, the result is the slice itself and passed the repeated-number
test. -/
lemma cpfFromSlice_ok_inv (slice : List Nat) (v : Cpf)
    (h : cpfFromSlice slice = .ok v) :
    (∀ d ∈ v.digits, d ≤ 9) ∧ v.digits.length = 11 ∧
      cpfCheckDigit v.digits 0 = v.digits.getD 9 0 ∧
      cpfCheckDigit v.digits 1 = v.digits.getD 10 0 ∧
      (slice.length = 11 → (allSame v.digits = false ∧ v.digits = slice)) := by
  unfold cpfFromSlice at h
  by_cases h0 : slice.length = 0
  · rw [if_pos h0] at h
    cases h
  rw [if_neg h0] at h
  by_cases h1 : ¬ (slice.length = 9 ∨ slice.length = 11)
  · rw [if_pos h1] at h
    cases h
  rw [if_neg h1] at h
  have hlen91 : slice.length = 9 ∨ slice.length = 11 := not_not.mp h1
  by_cases h2 : slice.any (fun x => 9 < x) = true
  · rw [if_pos h2] at h
    cases h
  rw [if_neg h2] at h
  have hsl : ∀ d ∈ slice, d ≤ 9 := by
    intro d hd
    by_contra hc
    exact h2 (List.any_eq_true.mpr ⟨d, hd, by simp; omega⟩)
  have hNlen : (slice ++ List.replicate (11 - slice.length) 0).length = 11 := by
    simp
    omega
  have hNle : ∀ d ∈ slice ++ List.replicate (11 - slice.length) 0, d ≤ 9 := by
    intro d hd
    rcases List.mem_append.mp hd with hm | hm
    · exact hsl d hm
    · have := List.eq_of_mem_replicate hm
      omega
  dsimp only at h
  by_cases h3 : slice.length = 11 ∧
      allSame (slice ++ List.replicate (11 - slice.length) 0) = true
  · rw [if_pos h3] at h
    cases h
  rw [if_neg h3] at h
  by_cases h4 : slice.length < 11
  · rw [if_pos h4] at h
    cases h
    have eqs := cpf_fill_eqs (slice ++ List.replicate (11 - slice.length) 0) _ _
      hNlen rfl rfl
    refine ⟨?_, ?_, eqs.1, eqs.2, ?_⟩
    · intro d hd
      rcases List.mem_or_eq_of_mem_set hd with hd1 | rfl
      · rcases List.mem_or_eq_of_mem_set hd1 with hd2 | rfl
        · exact hNle d hd2
        · exact cpfCheckDigit_le9 _ _
      · exact cpfCheckDigit_le9 _ _
    · simp [hNlen]
    · intro hc
      omega
  · rw [if_neg h4] at h
    have hl11 : slice.length = 11 := by omega
    have happ : slice ++ List.replicate (11 - slice.length) 0 = slice := by
      rw [hl11]
      simp
    rw [happ] at h
    by_cases h5 : cpfCheckDigit slice 0 ≠ slice.getD 9 0
    · rw [if_pos h5] at h
      cases h
    rw [if_neg h5] at h
    by_cases h6 : cpfCheckDigit slice 1 ≠ slice.getD 10 0
    · rw [if_pos h6] at h
      cases h
    rw [if_neg h6] at h
    cases h
    refine ⟨hsl, hl11, not_not.mp h5, not_not.mp h6, fun _ => ⟨?_, rfl⟩⟩
    rw [happ] at h3
    rcases Bool.eq_false_or_eq_true (allSame slice) with hb | hb
    · exact absurd ⟨hl11, hb⟩ h3
    · exact hb

/-- Inversion for `Cnpj::from_slice`. -/
lemma cnpjFromSlice_ok_inv (slice : List Nat) (v : Cnpj)
    (h : cnpjFromSlice slice = .ok v) :
    (∀ d ∈ v.digits, d ≤ 9) ∧ v.digits.length = 14 ∧
      cnpjCheckDigit v.digits 0 = v.digits.getD 12 0 ∧
      cnpjCheckDigit v.digits 1 = v.digits.getD 13 0 ∧
      (slice.length = 14 → (allSame v.digits = false ∧ v.digits = slice)) := by
  unfold cnpjFromSlice at h
  by_cases h0 : slice.length = 0
  · rw [if_pos h0] at h
    cases h
  rw [if_neg h0] at h
  by_cases h1 : ¬ (slice.length = 8 ∨ slice.length = 12 ∨ slice.length = 14)
  · rw [if_pos h1] at h
    cases h
  rw [if_neg h1] at h
  have hlen3 : slice.length = 8 ∨ slice.length = 12 ∨ slice.length = 14 :=
    not_not.mp h1
  by_cases h2 : slice.any (fun x => 9 < x) = true
  · rw [if_pos h2] at h
    cases h
  rw [if_neg h2] at h
  have hsl : ∀ d ∈ slice, d ≤ 9 := by
    intro d hd
    by_contra hc
    exact h2 (List.any_eq_true.mpr ⟨d, hd, by simp; omega⟩)
  have hBle : ∀ d ∈ slice ++ List.replicate (14 - slice.length) 0, d ≤ 9 := by
    intro d hd
    rcases List.mem_append.mp hd with hm | hm
    · exact hsl d hm
    · have := List.eq_of_mem_replicate hm
      omega
  dsimp only at h
  set base := slice ++ List.replicate (14 - slice.length) 0 with hbase
  set numbers := if slice.length = 8 then base.set 11 1 else base with hnum
  have hNlen : numbers.length = 14 := by
    rw [hnum]
    split <;> rw [hbase] <;> simp <;> omega
  have hNle : ∀ d ∈ numbers, d ≤ 9 := by
    rw [hnum]
    split
    · intro d hd
      rcases List.mem_or_eq_of_mem_set hd with hd1 | rfl
      · exact hBle d hd1
      · omega
    · exact hBle
  by_cases h3 : slice.length = 14 ∧ allSame numbers = true
  · rw [if_pos h3] at h
    cases h
  rw [if_neg h3] at h
  by_cases h4 : slice.length < 14
  · rw [if_pos h4] at h
    cases h
    have eqs := cnpj_fill_eqs numbers _ _ hNlen rfl rfl
    refine ⟨?_, ?_, eqs.1, eqs.2, ?_⟩
    · intro d hd
      rcases List.mem_or_eq_of_mem_set hd with hd1 | rfl
      · rcases List.mem_or_eq_of_mem_set hd1 with hd2 | rfl
        · exact hNle d hd2
        · exact cnpjCheckDigit_le9 _ _
      · exact cnpjCheckDigit_le9 _ _
    · simp [hNlen]
    · intro hc
      omega
  · rw [if_neg h4] at h
    have hl14 : slice.length = 14 := by omega
    have hnumeq : numbers = slice := by
      rw [hnum, if_neg (by omega), hbase, hl14]
      simp
    rw [hnumeq] at h
    by_cases h5 : cnpjCheckDigit slice 0 ≠ slice.getD 12 0
    · rw [if_pos h5] at h
      cases h
    rw [if_neg h5] at h
    by_cases h6 : cnpjCheckDigit slice 1 ≠ slice.getD 13 0
    · rw [if_pos h6] at h
      cases h
    rw [if_neg h6] at h
    cases h
    refine ⟨hsl, hl14, not_not.mp h5, not_not.mp h6, fun _ => ⟨?_, rfl⟩⟩
    rw [hnumeq] at h3
    rcases Bool.eq_false_or_eq_true (allSame slice) with hb | hb
    · exact absurd ⟨hl14, hb⟩ h3
    · exact hb

/-! ## More list access helpers -/

lemma getD_mem (l : List Nat) (n : Nat) (h : n < l.length) : l.getD n 0 ∈ l := by
  induction l generalizing n with
  | nil => simp at h
  | cons a l ih =>
    cases n with
    | zero => simp
    | succ n =>
      simp only [List.getD_cons_succ]
      exact List.mem_cons_of_mem _ (ih n (by simpa using h))

lemma getD_append_right (l1 l2 : List Nat) (n : Nat) (h : l1.length ≤ n) :
    (l1 ++ l2).getD n 0 = l2.getD (n - l1.length) 0 := by
  induction l1 generalizing n with
  | nil => simp
  | cons a l1 ih =>
    cases n with
    | zero => simp at h
    | succ n =>
      simp only [List.cons_append, List.getD_cons_succ, List.length_cons]
      rw [ih n (by simpa using h)]
      congr 1
      omega

/-! ## The random samplers -/

/-- The shape of `cpfSample`: nine drawn base digits, two zero slots, then
two computed check digits. -/
lemma cpfSample_spec (g : Nat → Nat) :
    ∃ base n1, base = ((List.range 9).map fun k => g k % 9) ++ [0, 0] ∧
      n1 = base.set 9 (cpfCheckDigit base 0) ∧
      (cpfSample g).digits = n1.set 10 (cpfCheckDigit n1 1) :=
  ⟨_, _, rfl, rfl, rfl⟩

/-- The shape of `cnpjSample`: eight drawn base digits, branch `0001`, two
computed check digits. -/
lemma cnpjSample_spec (g : Nat → Nat) :
    ∃ base n1, base = ((List.range 8).map fun k => g k % 9) ++ [0, 0, 0, 1, 0, 0] ∧
      n1 = base.set 12 (cnpjCheckDigit base 0) ∧
      (cnpjSample g).digits = n1.set 13 (cnpjCheckDigit n1 1) :=
  ⟨_, _, rfl, rfl, rfl⟩

lemma cpfSample_len (g : Nat → Nat) : (cpfSample g).digits.length = 11 := by
  obtain ⟨base, n1, hb, h1, h2⟩ := cpfSample_spec g
  rw [h2, List.length_set, h1, List.length_set, hb]
  simp

lemma cnpjSample_len (g : Nat → Nat) : (cnpjSample g).digits.length = 14 := by
  obtain ⟨base, n1, hb, h1, h2⟩ := cnpjSample_spec g
  rw [h2, List.length_set, h1, List.length_set, hb]
  simp

lemma cpfSample_le9 (g : Nat → Nat) : ∀ d ∈ (cpfSample g).digits, d ≤ 9 := by
  obtain ⟨base, n1, hb, h1, h2⟩ := cpfSample_spec g
  rw [h2]
  intro d hd
  rcases List.mem_or_eq_of_mem_set hd with hd1 | rfl
  · rw [h1] at hd1
    rcases List.mem_or_eq_of_mem_set hd1 with hd2 | rfl
    · rw [hb] at hd2
      rcases List.mem_append.mp hd2 with hm | hm
      · obtain ⟨k, hk, rfl⟩ := List.mem_map.mp hm
        have := Nat.mod_lt (g k) (show 0 < 9 by omega)
        omega
      · simp at hm
        omega
    · exact cpfCheckDigit_le9 _ _
  · exact cpfCheckDigit_le9 _ _

lemma cnpjSample_le9 (g : Nat → Nat) : ∀ d ∈ (cnpjSample g).digits, d ≤ 9 := by
  obtain ⟨base, n1, hb, h1, h2⟩ := cnpjSample_spec g
  rw [h2]
  intro d hd
  rcases List.mem_or_eq_of_mem_set hd with hd1 | rfl
  · rw [h1] at hd1
    rcases List.mem_or_eq_of_mem_set hd1 with hd2 | rfl
    · rw [hb] at hd2
      rcases List.mem_append.mp hd2 with hm | hm
      · obtain ⟨k, hk, rfl⟩ := List.mem_map.mp hm
        have := Nat.mod_lt (g k) (show 0 < 9 by omega)
        omega
      · simp at hm
        omega
    · exact cnpjCheckDigit_le9 _ _
  · exact cnpjCheckDigit_le9 _ _

/-- Both check-digit equations hold on every sampled CPF. -/
lemma cpfSample_eqs (g : Nat → Nat) :
    cpfCheckDigit (cpfSample g).digits 0 = (cpfSample g).digits.getD 9 0 ∧
      cpfCheckDigit (cpfSample g).digits 1 = (cpfSample g).digits.getD 10 0 := by
  obtain ⟨base, n1, hb, h1, h2⟩ := cpfSample_spec g
  exact cpf_fill_eqs base n1 _ (by rw [hb]; simp) h1 h2

/-- Both check-digit equations hold on every sampled CNPJ. -/
lemma cnpjSample_eqs (g : Nat → Nat) :
    cnpjCheckDigit (cnpjSample g).digits 0 = (cnpjSample g).digits.getD 12 0 ∧
      cnpjCheckDigit (cnpjSample g).digits 1 = (cnpjSample g).digits.getD 13 0 := by
  obtain ⟨base, n1, hb, h1, h2⟩ := cnpjSample_spec g
  exact cnpj_fill_eqs base n1 _ (by rw [hb]; simp) h1 h2

/-- The nine base digits of a sampled CPF are the raw draws reduced mod 9
(`gen_range(0, 9)` is half-open). -/
lemma cpfSample_take9 (g : Nat → Nat) :
    (cpfSample g).digits.take 9 = (List.range 9).map fun k => g k % 9 := by
  obtain ⟨base, n1, hb, h1, h2⟩ := cpfSample_spec g
  rw [h2, take_set_of_le _ _ _ _ (by omega), h1,
    take_set_of_le _ _ _ _ (by omega), hb,
    List.take_append_of_le_length (by simp), List.take_of_length_le (by simp)]

/-- The eight base digits of a sampled CNPJ are the raw draws reduced mod 9. -/
lemma cnpjSample_take8 (g : Nat → Nat) :
    (cnpjSample g).digits.take 8 = (List.range 8).map fun k => g k % 9 := by
  obtain ⟨base, n1, hb, h1, h2⟩ := cnpjSample_spec g
  rw [h2, take_set_of_le _ _ _ _ (by omega), h1,
    take_set_of_le _ _ _ _ (by omega), hb,
    List.take_append_of_le_length (by simp), List.take_of_length_le (by simp)]

/-- A sampled CNPJ is never the all-identical digit array: position 8 holds
0 while position 11 holds the branch digit 1. -/
lemma cnpjSample_not_allSame (g : Nat → Nat) :
    allSame (cnpjSample g).digits = false := by
  obtain ⟨base, n1, hb, h1, h2⟩ := cnpjSample_spec g
  have h8 : (cnpjSample g).digits.getD 8 0 = 0 := by
    rw [h2, getD_set_ne _ _ _ _ (by omega), h1, getD_set_ne _ _ _ _ (by omega),
      hb, getD_append_right _ _ _ (by simp)]
    simp
  have h11 : (cnpjSample g).digits.getD 11 0 = 1 := by
    rw [h2, getD_set_ne _ _ _ _ (by omega), h1, getD_set_ne _ _ _ _ (by omega),
      hb, getD_append_right _ _ _ (by simp)]
    simp
  rcases Bool.eq_false_or_eq_true (allSame (cnpjSample g).digits) with hc | hc
  · unfold allSame at hc
    have hall := List.all_eq_true.mp hc
    have hm0 : (0 : Nat) ∈ (cnpjSample g).digits :=
      h8 ▸ getD_mem _ 8 (by rw [cnpjSample_len]; omega)
    have hm1 : (1 : Nat) ∈ (cnpjSample g).digits :=
      h11 ▸ getD_mem _ 11 (by rw [cnpjSample_len]; omega)
    have e0 := hall 0 hm0
    have e1 := hall 1 hm1
    simp at e0 e1
    omega
  · exact hc

/-! ## Digit bounds through the CNPJ scan -/

lemma cnpjScanLoop_le9 (s : List Nat) :
    ∀ (off i : Nat) (hasDot : Bool) (numbers out : List Nat),
      (∀ d ∈ numbers, d ≤ 9) →
      cnpjScanLoop s off i hasDot numbers = .ok out → ∀ d ∈ out, d ≤ 9 := by
  induction s with
  | nil =>
    intro off i hasDot numbers out hnum h
    have : numbers = out := by
      simpa [cnpjScanLoop] using h
    exact this ▸ hnum
  | cons c rest ih =>
    intro off i hasDot numbers out hnum h
    simp only [cnpjScanLoop] at h
    by_cases hc1 : 48 ≤ c ∧ c ≤ 57
    · rw [if_pos hc1] at h
      by_cases hc2 : i < 14
      · rw [if_pos hc2] at h
        refine ih _ _ _ _ _ ?_ h
        intro d hd
        rcases List.mem_or_eq_of_mem_set hd with hd1 | rfl
        · exact hnum d hd1
        · omega
      · rw [if_neg hc2] at h
        cases h
    · rw [if_neg hc1] at h
      by_cases hc3 : c = 46 ∧ (off = 2 ∨ off = 6)
      · rw [if_pos hc3] at h
        exact ih _ _ _ _ _ hnum h
      rw [if_neg hc3] at h
      by_cases hc4 : c = 47 ∧ off = 10 ∧ hasDot = true
      · rw [if_pos hc4] at h
        exact ih _ _ _ _ _ hnum h
      rw [if_neg hc4] at h
      by_cases hc5 : c = 47 ∧ off = 8 ∧ hasDot = false
      · rw [if_pos hc5] at h
        exact ih _ _ _ _ _ hnum h
      rw [if_neg hc5] at h
      by_cases hc6 : c = 45 ∧ off = 15 ∧ hasDot = true
      · rw [if_pos hc6] at h
        exact ih _ _ _ _ _ hnum h
      rw [if_neg hc6] at h
      by_cases hc7 : c = 45 ∧ off = 13 ∧ hasDot = false
      · rw [if_pos hc7] at h
        exact ih _ _ _ _ _ hnum h
      rw [if_neg hc7] at h
      cases h

/-! ## The branch accessor -/

/-- With every digit at most 9, the branch value is at most 9999 (so the
`u16` arithmetic in the source, bounded by `2 ^ 16`, never wraps). -/
lemma cnpjBranch_le (v : Cnpj) (hle : ∀ d ∈ v.digits, d ≤ 9) :
    cnpjBranch v ≤ 9999 := by
  unfold cnpjBranch
  have hsub : ∀ d ∈ (v.digits.drop 8).take 4, d ≤ 9 := fun d hd =>
    hle d (List.drop_subset _ _ (List.take_subset _ _ hd))
  have hlen4 : ((v.digits.drop 8).take 4).length ≤ 4 := by
    rw [List.length_take]
    omega
  rcases ht : (v.digits.drop 8).take 4 with _ | ⟨e0, t⟩
  · simp
  rw [ht] at hsub hlen4
  rcases t with _ | ⟨e1, t⟩
  · have he0 : e0 ≤ 9 := hsub _ (by simp)
    simp [List.enum, List.enumFrom]
    omega
  rcases t with _ | ⟨e2, t⟩
  · have he0 : e0 ≤ 9 := hsub _ (by simp)
    have he1 : e1 ≤ 9 := hsub _ (by simp)
    simp [List.enum, List.enumFrom]
    omega
  rcases t with _ | ⟨e3, t⟩
  · have he0 : e0 ≤ 9 := hsub _ (by simp)
    have he1 : e1 ≤ 9 := hsub _ (by simp)
    have he2 : e2 ≤ 9 := hsub _ (by simp)
    simp [List.enum, List.enumFrom]
    omega
  rcases t with _ | ⟨e4, t⟩
  · have he0 : e0 ≤ 9 := hsub _ (by simp)
    have he1 : e1 ≤ 9 := hsub _ (by simp)
    have he2 : e2 ≤ 9 := hsub _ (by simp)
    have he3 : e3 ≤ 9 := hsub _ (by simp)
    simp [List.enum, List.enumFrom]
    omega
  · simp at hlen4

/-- Digit bounds for every value produced by `Cnpj::from_str`. -/
lemma cnpjFromStr_le9 (s : List Nat) (v : Cnpj) (h : cnpjFromStr s = .ok v) :
    ∀ d ∈ v.digits, d ≤ 9 := by
  unfold cnpjFromStr at h
  by_cases hs : s.length = 0
  · rw [if_pos hs] at h
    cases h
  rw [if_neg hs] at h
  rcases hscan : cnpjScanLoop s 0 0 false (List.replicate 14 0) with e | numbers
  · rw [hscan] at h
    cases h
  · rw [hscan] at h
    have hd := (cnpjChecks_ok_inv numbers v h).1
    rw [hd]
    refine cnpjScanLoop_le9 s 0 0 false _ numbers ?_ hscan
    intro d hd2
    have := List.eq_of_mem_replicate hd2
    omega

/-! ## Claim theorems -/

/-- C1 (counterexample): `Cpf::from_slice` on the all-zero 9-digit base
slice succeeds and produces the all-identical digit array `[0; 11]`, so the
"never all-identical" invariant does not hold for values built by
`from_slice` from a base slice of length N−2. -/
theorem brids_C1_counterexample :
    cpfFromSlice [0, 0, 0, 0, 0, 0, 0, 0, 0] = .ok ⟨List.replicate 11 0⟩ ∧
      allSame (List.replicate 11 0) = true := by
  constructor
  · decide
  · decide

/-- C1 (amended): for every live value, from whichever validated
constructor, the last two digits equal the two check digits computed from
the preceding digits by the modulo-11 procedure; the digit array is
additionally never all-identical for values from the text parser or from a
full-length `from_slice`, but a base-slice `from_slice` (and random
sampling) can produce the all-identical array. -/
theorem brids_C1 :
    (∀ s v, cpfFromStr s = .ok v → allSame v.digits = false ∧
      cpfCheckDigit v.digits 0 = v.digits.getD 9 0 ∧
      cpfCheckDigit v.digits 1 = v.digits.getD 10 0) ∧
    (∀ s v, cnpjFromStr s = .ok v → allSame v.digits = false ∧
      cnpjCheckDigit v.digits 0 = v.digits.getD 12 0 ∧
      cnpjCheckDigit v.digits 1 = v.digits.getD 13 0) ∧
    (∀ slice v, cpfFromSlice slice = .ok v →
      (cpfCheckDigit v.digits 0 = v.digits.getD 9 0 ∧
       cpfCheckDigit v.digits 1 = v.digits.getD 10 0) ∧
      (slice.length = 11 → allSame v.digits = false)) ∧
    (∀ slice v, cnpjFromSlice slice = .ok v →
      (cnpjCheckDigit v.digits 0 = v.digits.getD 12 0 ∧
       cnpjCheckDigit v.digits 1 = v.digits.getD 13 0) ∧
      (slice.length = 14 → allSame v.digits = false)) ∧
    (∀ g, (cpfCheckDigit (cpfSample g).digits 0 = (cpfSample g).digits.getD 9 0 ∧
      cpfCheckDigit (cpfSample g).digits 1 = (cpfSample g).digits.getD 10 0) ∧
      (cnpjCheckDigit (cnpjSample g).digits 0 = (cnpjSample g).digits.getD 12 0 ∧
       cnpjCheckDigit (cnpjSample g).digits 1 = (cnpjSample g).digits.getD 13 0)) := by
  refine ⟨?_, ?_, ?_, ?_, ?_⟩
  · intro s v h
    exact cpfFromStr_ok_inv s v h
  · intro s v h
    exact cnpjFromStr_ok_inv s v h
  · intro slice v h
    obtain ⟨_, _, e1, e2, himp⟩ := cpfFromSlice_ok_inv slice v h
    exact ⟨⟨e1, e2⟩, fun hl => (himp hl).1⟩
  · intro slice v h
    obtain ⟨_, _, e1, e2, himp⟩ := cnpjFromSlice_ok_inv slice v h
    exact ⟨⟨e1, e2⟩, fun hl => (himp hl).1⟩
  · intro g
    exact ⟨cpfSample_eqs g, cnpjSample_eqs g⟩

/-- C1 witness: the amended theorem instantiated at the canonical example
CPF string. -/
theorem brids_C1_witness :
    cpfFromStr (codes "123.456.789-09") = .ok ⟨[1, 2, 3, 4, 5, 6, 7, 8, 9, 0, 9]⟩ ∧
      (allSame (Cpf.digits ⟨[1, 2, 3, 4, 5, 6, 7, 8, 9, 0, 9]⟩) = false ∧
        cpfCheckDigit (Cpf.digits ⟨[1, 2, 3, 4, 5, 6, 7, 8, 9, 0, 9]⟩) 0 =
          (Cpf.digits ⟨[1, 2, 3, 4, 5, 6, 7, 8, 9, 0, 9]⟩).getD 9 0 ∧
        cpfCheckDigit (Cpf.digits ⟨[1, 2, 3, 4, 5, 6, 7, 8, 9, 0, 9]⟩) 1 =
          (Cpf.digits ⟨[1, 2, 3, 4, 5, 6, 7, 8, 9, 0, 9]⟩).getD 10 0) :=
  ⟨by decide, brids_C1.1 (codes "123.456.789-09") ⟨[1, 2, 3, 4, 5, 6, 7, 8, 9, 0, 9]⟩
    (by decide)⟩

/-- C2 (code bug): `Cpf::from_str` never compares the collected digit count
against 11, so the 9-digit input "000000093" — whose zero-padded buffer
happens to satisfy both check-digit equations — parses successfully instead
of failing with `InvalidNumber`. -/
theorem brids_C2 :
    (codes "000000093").length = 9 ∧
      cpfFromStr (codes "000000093") =
        .ok ⟨[0, 0, 0, 0, 0, 0, 0, 9, 3, 0, 0]⟩ := by
  constructor
  · decide
  · decide

/-- C3: for every valid value, parsing its canonical formatted string
succeeds and yields the same value (both identifier kinds). -/
theorem brids_C3 :
    (∀ l, cpfValid l → cpfFromStr (cpfDisplay ⟨l⟩) = .ok ⟨l⟩) ∧
    (∀ l, cnpjValid l → cnpjFromStr (cnpjDisplay ⟨l⟩) = .ok ⟨l⟩) :=
  ⟨cpf_roundtrip, cnpj_roundtrip⟩

/-- C3 witness: the round-trip at the canonical example values. -/
theorem brids_C3_witness :
    cpfValid [1, 2, 3, 4, 5, 6, 7, 8, 9, 0, 9] ∧
      cpfFromStr (cpfDisplay ⟨[1, 2, 3, 4, 5, 6, 7, 8, 9, 0, 9]⟩) =
        .ok ⟨[1, 2, 3, 4, 5, 6, 7, 8, 9, 0, 9]⟩ ∧
      cnpjValid [1, 2, 3, 4, 5, 6, 7, 8, 0, 0, 0, 1, 9, 5] ∧
      cnpjFromStr (cnpjDisplay ⟨[1, 2, 3, 4, 5, 6, 7, 8, 0, 0, 0, 1, 9, 5]⟩) =
        .ok ⟨[1, 2, 3, 4, 5, 6, 7, 8, 0, 0, 0, 1, 9, 5]⟩ :=
  ⟨by decide, brids_C3.1 _ (by decide), by decide, brids_C3.2 _ (by decide)⟩

/-- C4: the check digits are computed by zipping with the literal weight
sequences `(2..=10+i).rev()` (CPF) and `((2..=9).chain(2..=5+i)).rev()`
(CNPJ) — spelled out below — and the one procedure both decides acceptance
of supplied check digits (full-length `from_slice` succeeds exactly when
the two check-digit equations hold) and fills in missing ones (every
`from_slice` output satisfies the equations). -/
theorem brids_C4 :
    (cpfWeights 0 = [10, 9, 8, 7, 6, 5, 4, 3, 2] ∧
     cpfWeights 1 = [11, 10, 9, 8, 7, 6, 5, 4, 3, 2] ∧
     cnpjWeights 0 = [5, 4, 3, 2, 9, 8, 7, 6, 5, 4, 3, 2] ∧
     cnpjWeights 1 = [6, 5, 4, 3, 2, 9, 8, 7, 6, 5, 4, 3, 2]) ∧
    (∀ numbers : List Nat, numbers.length = 11 → (∀ d ∈ numbers, d ≤ 9) →
      (cpfFromSlice numbers = .ok ⟨numbers⟩ ↔
        allSame numbers = false ∧
        cpfCheckDigit numbers 0 = numbers.getD 9 0 ∧
        cpfCheckDigit numbers 1 = numbers.getD 10 0)) ∧
    (∀ numbers : List Nat, numbers.length = 14 → (∀ d ∈ numbers, d ≤ 9) →
      (cnpjFromSlice numbers = .ok ⟨numbers⟩ ↔
        allSame numbers = false ∧
        cnpjCheckDigit numbers 0 = numbers.getD 12 0 ∧
        cnpjCheckDigit numbers 1 = numbers.getD 13 0)) ∧
    (∀ slice v, cpfFromSlice slice = .ok v →
      cpfCheckDigit v.digits 0 = v.digits.getD 9 0 ∧
      cpfCheckDigit v.digits 1 = v.digits.getD 10 0) ∧
    (∀ slice v, cnpjFromSlice slice = .ok v →
      cnpjCheckDigit v.digits 0 = v.digits.getD 12 0 ∧
      cnpjCheckDigit v.digits 1 = v.digits.getD 13 0) := by
  refine ⟨by refine ⟨?_, ?_, ?_, ?_⟩ <;> decide, ?_, ?_, ?_, ?_⟩
  · intro numbers hlen hle
    constructor
    · intro h
      obtain ⟨_, _, e1, e2, himp⟩ := cpfFromSlice_ok_inv numbers _ h
      exact ⟨(himp hlen).1, e1, e2⟩
    · rintro ⟨hsame, h9, h10⟩
      exact cpf_fromSlice_full_ok numbers hlen hle hsame h9 h10
  · intro numbers hlen hle
    constructor
    · intro h
      obtain ⟨_, _, e1, e2, himp⟩ := cnpjFromSlice_ok_inv numbers _ h
      exact ⟨(himp hlen).1, e1, e2⟩
    · rintro ⟨hsame, h12, h13⟩
      exact cnpj_fromSlice_full_ok numbers hlen hle hsame h12 h13
  · intro slice v h
    obtain ⟨_, _, e1, e2, _⟩ := cpfFromSlice_ok_inv slice v h
    exact ⟨e1, e2⟩
  · intro slice v h
    obtain ⟨_, _, e1, e2, _⟩ := cnpjFromSlice_ok_inv slice v h
    exact ⟨e1, e2⟩

/-- C4 witness: the acceptance equivalence at the canonical example CPF
digit array. -/
theorem brids_C4_witness :
    ([1, 2, 3, 4, 5, 6, 7, 8, 9, 0, 9] : List Nat).length = 11 ∧
      (∀ d ∈ ([1, 2, 3, 4, 5, 6, 7, 8, 9, 0, 9] : List Nat), d ≤ 9) ∧
      cpfFromSlice [1, 2, 3, 4, 5, 6, 7, 8, 9, 0, 9] =
        .ok ⟨[1, 2, 3, 4, 5, 6, 7, 8, 9, 0, 9]⟩ :=
  ⟨by decide, by decide,
    (brids_C4.2.1 [1, 2, 3, 4, 5, 6, 7, 8, 9, 0, 9] (by decide) (by decide)).mpr
      (by decide)⟩

/-- C5: a non-digit character is accepted only at the exact offsets of the
position-dependent separator grammar; at any other offset the scan stops
with `InvalidCharacter` carrying the character and its zero-based offset
(45 is the scalar value of the dash).  Parsing "12-345-678/0001-95" as a
CNPJ returns `InvalidCharacter('-', 2)`, and every empty input returns
`Empty`. -/
theorem brids_C5 :
    (∀ (c : Nat) (rest : List Nat) (off i : Nat) (hasDot : Bool)
      (numbers : List Nat),
      ¬ (48 ≤ c ∧ c ≤ 57) →
      ¬ (c = 46 ∧ (off = 3 ∨ off = 7)) →
      ¬ ((c = 45 ∨ c = 47) ∧ off = 11 ∧ hasDot = true) →
      ¬ ((c = 45 ∨ c = 47) ∧ off = 9 ∧ hasDot = false) →
      cpfScanLoop (c :: rest) off i hasDot numbers =
        .error (.invalidCharacter c off)) ∧
    (∀ (c : Nat) (rest : List Nat) (off i : Nat) (hasDot : Bool)
      (numbers : List Nat),
      ¬ (48 ≤ c ∧ c ≤ 57) →
      ¬ (c = 46 ∧ (off = 2 ∨ off = 6)) →
      ¬ (c = 47 ∧ off = 10 ∧ hasDot = true) →
      ¬ (c = 47 ∧ off = 8 ∧ hasDot = false) →
      ¬ (c = 45 ∧ off = 15 ∧ hasDot = true) →
      ¬ (c = 45 ∧ off = 13 ∧ hasDot = false) →
      cnpjScanLoop (c :: rest) off i hasDot numbers =
        .error (.invalidCharacter c off)) ∧
    cnpjFromStr (codes "12-345-678/0001-95") = .error (.invalidCharacter 45 2) ∧
    cpfFromStr [] = .error .empty ∧
    cnpjFromStr [] = .error .empty :=
  ⟨cpfScan_invalidChar, cnpjScan_invalidChar, by decide, by decide, by decide⟩

/-- C5 witness: a space (scalar 32) at offset 0 is rejected by the CPF scan
with `InvalidCharacter(32, 0)`. -/
theorem brids_C5_witness :
    ¬ (48 ≤ 32 ∧ 32 ≤ 57) ∧
      cpfScanLoop (32 :: []) 0 0 false (List.replicate 11 0) =
        .error (.invalidCharacter 32 0) :=
  ⟨by decide, brids_C5.1 32 [] 0 0 false (List.replicate 11 0) (by decide)
    (by decide) (by decide) (by decide)⟩

/-- C6 (counterexample): the partially punctuated mixture "123.4567890-9"
(one dot, dash at offset 11) is accepted by the parser, although the claim
says every combination other than the canonical, bare, and slash-legacy
forms is rejected. -/
theorem brids_C6_counterexample :
    cpfFromStr (codes "123.4567890-9") = .ok ⟨[1, 2, 3, 4, 5, 6, 7, 8, 9, 0, 9]⟩ := by
  decide

/-- C6 (amended): the parser accepts the canonical punctuated form, the
bare N-digit run, and the slash-delimited legacy variant, and in addition
every other separator placement consistent with the position-dependent
grammar (for example a dash at offset 9, or a single dot with the shifted
dash offset); space-delimited input and misplaced separators are
rejected. -/
theorem brids_C6 :
    cpfFromStr (codes "123.456.789-09") = .ok ⟨[1, 2, 3, 4, 5, 6, 7, 8, 9, 0, 9]⟩ ∧
    cpfFromStr (codes "12345678909") = .ok ⟨[1, 2, 3, 4, 5, 6, 7, 8, 9, 0, 9]⟩ ∧
    cpfFromStr (codes "123456789/09") = .ok ⟨[1, 2, 3, 4, 5, 6, 7, 8, 9, 0, 9]⟩ ∧
    cpfFromStr (codes "123456789-09") = .ok ⟨[1, 2, 3, 4, 5, 6, 7, 8, 9, 0, 9]⟩ ∧
    cpfFromStr (codes "123.4567890-9") = .ok ⟨[1, 2, 3, 4, 5, 6, 7, 8, 9, 0, 9]⟩ ∧
    cpfFromStr (codes "123 456 789 09") = .error (.invalidCharacter 32 3) ∧
    cpfFromStr (codes "123-456-789-09") = .error (.invalidCharacter 45 3) ∧
    cnpjFromStr (codes "12.345.678/0001-95") =
      .ok ⟨[1, 2, 3, 4, 5, 6, 7, 8, 0, 0, 0, 1, 9, 5]⟩ ∧
    cnpjFromStr (codes "12345678000195") =
      .ok ⟨[1, 2, 3, 4, 5, 6, 7, 8, 0, 0, 0, 1, 9, 5]⟩ ∧
    cnpjFromStr (codes "12-345-678/0001-95") =
      .error (.invalidCharacter 45 2) := by
  refine ⟨?_, ?_, ?_, ?_, ?_, ?_, ?_, ?_, ?_, ?_⟩ <;> decide

/-- C7: `from_slice` on the first N−2 digits of a valid value reconstructs
exactly that value (check digits recomputed, not verified); a CNPJ 8-digit
base slice presets the branch sub-field to `0001` before computing the
check digits, and `[1,2,3,4,5,6,7,8]` reconstructs to
`[1,2,3,4,5,6,7,8,0,0,0,1,9,5]`. -/
theorem brids_C7 :
    (∀ l, cpfValid l → cpfFromSlice (l.take 9) = .ok ⟨l⟩) ∧
    (∀ l, cnpjValid l → cnpjFromSlice (l.take 12) = .ok ⟨l⟩) ∧
    (∀ b : List Nat, b.length = 8 → (∀ d ∈ b, d ≤ 9) →
      ∃ v : Cnpj, cnpjFromSlice b = .ok v ∧ v.digits.take 8 = b ∧
        (v.digits.drop 8).take 4 = [0, 0, 0, 1] ∧
        cnpjCheckDigit v.digits 0 = v.digits.getD 12 0 ∧
        cnpjCheckDigit v.digits 1 = v.digits.getD 13 0) ∧
    cnpjFromSlice [1, 2, 3, 4, 5, 6, 7, 8] =
      .ok ⟨[1, 2, 3, 4, 5, 6, 7, 8, 0, 0, 0, 1, 9, 5]⟩ :=
  ⟨cpf_fromSlice_take, cnpj_fromSlice_take, cnpj_fromSlice_base8, by decide⟩

/-- C7 witness: reconstruction of the canonical example CPF from its first
nine digits. -/
theorem brids_C7_witness :
    cpfValid [1, 2, 3, 4, 5, 6, 7, 8, 9, 0, 9] ∧
      cpfFromSlice (([1, 2, 3, 4, 5, 6, 7, 8, 9, 0, 9] : List Nat).take 9) =
        .ok ⟨[1, 2, 3, 4, 5, 6, 7, 8, 9, 0, 9]⟩ :=
  ⟨by decide, brids_C7.1 _ (by decide)⟩

/-- C8 (counterexample): the random source that always returns 0 makes
`sample` produce the all-zero CPF, whose canonical string
"000.000.000-00" re-parses as `InvalidNumber`, so not every generator
output round-trips. -/
theorem brids_C8_counterexample :
    cpfSample (fun _ => 0) = ⟨List.replicate 11 0⟩ ∧
      cpfFromStr (cpfDisplay (cpfSample (fun _ => 0))) =
        .error .invalidNumber := by
  constructor
  · decide
  · decide

/-- C8 (amended): every sampler output satisfies both check-digit
equations; a sampled CPF whose digits are not all identical re-parses from
its canonical string to an equal value, and a sampled CNPJ (which is never
all-identical, its branch field holding both 0 and 1) always re-parses to
an equal value. -/
theorem brids_C8 (g : Nat → Nat) :
    ((cpfCheckDigit (cpfSample g).digits 0 = (cpfSample g).digits.getD 9 0 ∧
      cpfCheckDigit (cpfSample g).digits 1 = (cpfSample g).digits.getD 10 0) ∧
     (cnpjCheckDigit (cnpjSample g).digits 0 = (cnpjSample g).digits.getD 12 0 ∧
      cnpjCheckDigit (cnpjSample g).digits 1 = (cnpjSample g).digits.getD 13 0)) ∧
    (allSame (cpfSample g).digits = false →
      cpfFromStr (cpfDisplay (cpfSample g)) = .ok (cpfSample g)) ∧
    cnpjFromStr (cnpjDisplay (cnpjSample g)) = .ok (cnpjSample g) := by
  refine ⟨⟨cpfSample_eqs g, cnpjSample_eqs g⟩, ?_, ?_⟩
  · intro hns
    exact cpf_roundtrip (cpfSample g).digits
      ⟨cpfSample_len g, cpfSample_le9 g, hns, (cpfSample_eqs g).1,
        (cpfSample_eqs g).2⟩
  · exact cnpj_roundtrip (cnpjSample g).digits
      ⟨cnpjSample_len g, cnpjSample_le9 g, cnpjSample_not_allSame g,
        (cnpjSample_eqs g).1, (cnpjSample_eqs g).2⟩

/-- C8 witness: the amended theorem at the identity draw stream, whose
sampled CPF digits `[0,1,2,3,4,5,6,7,8,…]` are not all identical. -/
theorem brids_C8_witness :
    allSame (cpfSample (fun k => k)).digits = false ∧
      cpfFromStr (cpfDisplay (cpfSample (fun k => k))) =
        .ok (cpfSample (fun k => k)) :=
  ⟨by decide, (brids_C8 (fun k => k)).2.1 (by decide)⟩

/-- C9 (code bug): `gen_range(0, 9)` in rand 0.6 is half-open, so every
base digit of a sampled value is strictly below 9 — the digit 9 can never
be drawn, although the claim requires sampling uniformly over `0..=9`. -/
theorem brids_C9 :
    ∀ g : Nat → Nat,
      ((cpfSample g).digits.take 9).all (fun d => d < 9) = true ∧
      ((cnpjSample g).digits.take 8).all (fun d => d < 9) = true := by
  intro g
  constructor
  · rw [cpfSample_take9]
    simp only [List.all_eq_true, decide_eq_true_eq]
    intro x hx
    obtain ⟨k, _, rfl⟩ := List.mem_map.mp hx
    exact Nat.mod_lt _ (by omega)
  · rw [cnpjSample_take8]
    simp only [List.all_eq_true, decide_eq_true_eq]
    intro x hx
    obtain ⟨k, _, rfl⟩ := List.mem_map.mp hx
    exact Nat.mod_lt _ (by omega)

/-- C10: every CNPJ produced by a public constructor stores digits at most
9, hence `branch()` — the big-endian base-10 reading of digits 8–11 — is at
most 9999, below `2 ^ 16`, so the `u16` arithmetic in the source never
wraps. -/
theorem brids_C10 :
    (∀ s v, cnpjFromStr s = .ok v →
      (∀ d ∈ v.digits, d ≤ 9) ∧ cnpjBranch v ≤ 9999) ∧
    (∀ slice v, cnpjFromSlice slice = .ok v →
      (∀ d ∈ v.digits, d ≤ 9) ∧ cnpjBranch v ≤ 9999) ∧
    (∀ g, (∀ d ∈ (cnpjSample g).digits, d ≤ 9) ∧
      cnpjBranch (cnpjSample g) ≤ 9999) ∧
    (9999 : Nat) < 2 ^ 16 := by
  refine ⟨?_, ?_, ?_, by omega⟩
  · intro s v h
    have hle := cnpjFromStr_le9 s v h
    exact ⟨hle, cnpjBranch_le v hle⟩
  · intro slice v h
    have hle := (cnpjFromSlice_ok_inv slice v h).1
    exact ⟨hle, cnpjBranch_le v hle⟩
  · intro g
    exact ⟨cnpjSample_le9 g, cnpjBranch_le _ (cnpjSample_le9 g)⟩

/-- C10 witness: the bound at the canonical example CNPJ string. -/
theorem brids_C10_witness :
    cnpjFromStr (codes "12.345.678/0001-95") =
        .ok ⟨[1, 2, 3, 4, 5, 6, 7, 8, 0, 0, 0, 1, 9, 5]⟩ ∧
      ((∀ d ∈ (Cnpj.digits ⟨[1, 2, 3, 4, 5, 6, 7, 8, 0, 0, 0, 1, 9, 5]⟩), d ≤ 9) ∧
        cnpjBranch ⟨[1, 2, 3, 4, 5, 6, 7, 8, 0, 0, 0, 1, 9, 5]⟩ ≤ 9999) :=
  ⟨by decide, brids_C10.1 (codes "12.345.678/0001-95")
    ⟨[1, 2, 3, 4, 5, 6, 7, 8, 0, 0, 0, 1, 9, 5]⟩ (by decide)⟩

end Brids
